import Mathlib

/-!
Verification development for the softball-backend simulation engine.

Shallow embedding of the game engine:
* machine numbers are idealized as `ℝ` (the source arithmetic has no
  overflow-relevant behaviour; counters are `ℕ`),
* every call to the ambient random generator (`Math.random()`) is one value
  drawn from an oracle stream `rnd : ℕ → ℝ`, threaded by an explicit index in
  exactly the order of the call sites of the source,
* teams are modelled as total position lookups (`getFielderByPosition` on a
  fully staffed roster; the source throws on a missing position, a
  configuration error out of scope for the claims treated here).

The repository carries two fielding engines: the one wired to `Game.ts`
(an unnamed source file; `simulateFielding`, `handleTagUp`,
`attemptTagUpAdvance`, `getRunsFromHomer`, ... — embedded below in namespace
`Legacy`) and the engine in `src/game/fielding.ts`
(`simulateFielding`, `simulateFieldingWithRunners`, `catchProbability`,
`tagUpAdvanceProb`, ... — embedded in namespace `FieldingTs`).  Both are
embedded from their sources.
-/

namespace Softball

/-- Fielding positions, from `src/game/types.ts` (`FieldingPosition`). -/
inductive Pos where
  | pitcher
  | catcher
  | firstBase
  | secondBase
  | thirdBase
  | shortstop
  | leftField
  | centerField
  | rightField
  | bench
deriving DecidableEq

/-- Player skill scalars, from `src/game/types.ts` (`Stats`). -/
structure Stats where
  contact : ℝ := 0
  power : ℝ := 0
  running : ℝ := 0
  pitching : ℝ := 0
  fielding : ℝ := 0
  charisma : ℝ := 0
  growth : ℝ := 0

/-- A player, from `src/game/Player.ts` (the `activePosition` variant of the
class, the one used by the game engine). -/
structure Player where
  firstname : String := "John"
  lastname : String := "Doe"
  stats : Stats := {}
  activePosition : Pos := Pos.bench

/-- `Player.isOutfielder` from `src/game/Player.ts`. -/
def Player.isOutfielder (p : Player) : Bool :=
  p.activePosition = Pos.leftField ∨ p.activePosition = Pos.centerField ∨
    p.activePosition = Pos.rightField

/-- `Player.isInfielder` from `src/game/Player.ts`: note that the source
includes the battery (Pitcher, Catcher) in this predicate. -/
def Player.isInfielder (p : Player) : Bool :=
  p.activePosition = Pos.firstBase ∨ p.activePosition = Pos.secondBase ∨
    p.activePosition = Pos.thirdBase ∨ p.activePosition = Pos.shortstop ∨
    p.activePosition = Pos.pitcher ∨ p.activePosition = Pos.catcher

/-- Base occupancy (`RunnersState` in `src/game/types.ts`), generic in the
runner payload so the game-loop theorems can instantiate it with tokens. -/
structure Bases (α : Type) where
  first : Option α := none
  second : Option α := none
  third : Option α := none
deriving DecidableEq

/-- The empty base state. -/
def Bases.empty (α : Type) : Bases α := {}

/-- Number of occupied bases. -/
def Bases.count {α : Type} (b : Bases α) : ℕ :=
  (if b.first.isSome then 1 else 0) + (if b.second.isSome then 1 else 0) +
    (if b.third.isSome then 1 else 0)

/-- A batted ball, from `src/game/types.ts` (`BattedBall`). -/
structure BattedBall where
  batter : Player
  velo : ℝ
  foul : Bool
  homer : Bool
  attack : ℝ
  launch : ℝ

/-- Play outcomes (`PlayType` / `FieldOutcome` unions in `src/game/types.ts`). -/
inductive PlayType where
  | SINGLE
  | DOUBLE
  | TRIPLE
  | HOME_RUN
  | OUT
  | DOUBLE_PLAY
  | TRIPLE_PLAY
deriving DecidableEq

/-- Ball flight classification, from `ball-classification.ts`. -/
inductive BallType where
  | GROUND
  | LINE
  | FLY
  | POP
deriving DecidableEq

/-- A defensive team, modelled as a total lookup
(`Team.getFielderByPosition` on a complete roster).  `firstPlayer` stands for
`players[0]`, used by `chooseFallbackFielder` in `fielding.ts`. -/
structure Team where
  byPos : Pos → Player
  firstPlayer : Player

/-- The oracle stream standing for successive `Math.random()` draws. -/
abbrev Rnd := ℕ → ℝ

/-- `classifyBall` (identical in both fielding engines and in
`src/game/fielding/ball-classification.ts`): GROUND below 10°, LINE below
25°, FLY below 60°, POP otherwise. -/
noncomputable def classifyBall (b : BattedBall) : BallType :=
  if b.launch < 10 then BallType.GROUND
  else if b.launch < 25 then BallType.LINE
  else if b.launch < 60 then BallType.FLY
  else BallType.POP

/-- `clamp` from `src/game/math.ts`: `Math.max(min, Math.min(max, x))`. -/
noncomputable def clamp (x lo hi : ℝ) : ℝ := max lo (min hi x)

/-- `calculateAirTime`, byte-identical in the legacy engine and in
`src/game/fielding/ball-classification.ts` / `src/game/fielding.ts`:
projectile flight time from a 1.0 m contact height with an 8 % flat drag
reduction.  The source's `!isFinite(t)` guard cannot fire over `ℝ`; the
`t < 0` guard is kept. -/
noncomputable def calculateAirTime (b : BattedBall) : ℝ :=
  let v := max 0 b.velo * 0.44704
  let theta := b.launch * Real.pi / 180
  let vVertical := v * Real.sin theta
  let t := (vVertical + Real.sqrt (vVertical * vVertical + 2 * 9.80665 * 1.0)) / 9.80665
  let t := if t < 0 then 0 else t
  t * (1 / (1 + 0.08))

/-- Horizontal speed of a batted ball in ft/s (`vHorizFtps` in
`estimateDropZone`). -/
noncomputable def ballVHorizFtps (b : BattedBall) : ℝ :=
  max 0 (max 0 b.velo * 0.44704 * Real.cos (b.launch * Real.pi / 180)) * 3.28084

/-- Horizontal air distance of a batted ball in feet (`xAirFt` in
`estimateDropZone`). -/
noncomputable def ballXAirFt (b : BattedBall) : ℝ :=
  max 0 (ballVHorizFtps b * calculateAirTime b)

/-- Raw horizontal range estimate in feet (`rangeFt` in `estimateDropZone`
before the grounder clamp). -/
noncomputable def ballRangeRawFt (b : BattedBall) : ℝ :=
  max 0 (max 0 b.velo * 0.44704 * Real.cos (b.launch * Real.pi / 180) *
    calculateAirTime b * 3.28084)

/-- Post-bounce time for a grounder to reach the 43 ft pitcher plane
(`timeToPlane` in `estimateDropZone`). -/
noncomputable def ballTimeToPlane (b : BattedBall) : ℝ :=
  (43 - ballXAirFt b) / max 0.001 (ballVHorizFtps b * 0.7)

/-- `estimateDropZone`, common body of the legacy engine and of
`src/game/fielding.ts`; the two sources differ in exactly one constant,
`PITCHER_ATTACK_CONE_DEG` (3 in the legacy file, 5 in `fielding.ts`), passed
here as `pitcherCone`. -/
noncomputable def estimateDropZoneCore (pitcherCone : ℝ) (b : BattedBall) : Pos :=
  let rangeFt := if b.launch < 10 then min (ballRangeRawFt b) 120 else ballRangeRawFt b
  let attack := b.attack
  if b.foul then
    if 35 ≤ b.launch ∧ rangeFt ≤ 90 then
      if rangeFt ≤ 45 ∧ (87 ≤ b.launch ∧ b.launch ≤ 93) then Pos.catcher
      else if 30 ≤ attack then Pos.firstBase
      else if attack ≤ -30 then Pos.thirdBase
      else Pos.bench
    else Pos.bench
  else if b.launch < 10 ∧ ballXAirFt b < 43 then
    -- grounder that does not cross the pitcher plane in the air
    if |attack| ≤ pitcherCone ∧ b.launch ≤ 8 ∧ ballXAirFt b ≤ 20 ∧
        0.35 ≤ ballTimeToPlane b then
      Pos.pitcher
    else if attack ≤ -30 then Pos.thirdBase
    else if 30 ≤ attack then Pos.firstBase
    else if attack < -10 then Pos.shortstop
    else if 10 < attack then Pos.secondBase
    else if attack < 0 then Pos.shortstop
    else Pos.secondBase
  else if rangeFt < 35 ∧ (87 ≤ b.launch ∧ b.launch ≤ 93) then Pos.catcher
  else
    let infieldUpper : ℝ :=
      if |rangeFt - 95| ≤ 10 then (if b.launch < 15 then 105 else 85) else 95
    if rangeFt < infieldUpper then
      if attack < -15 then (if attack ≤ -30 then Pos.thirdBase else Pos.shortstop)
      else if 15 < attack then (if 30 ≤ attack then Pos.firstBase else Pos.secondBase)
      else if attack < 0 then Pos.shortstop
      else Pos.secondBase
    else if attack < -15 then Pos.leftField
    else if 15 < attack then Pos.rightField
    else Pos.centerField

end Softball

namespace Softball

namespace Legacy

/-- `estimateDropZone` of the legacy fielding engine
(`PITCHER_ATTACK_CONE_DEG = 3`). -/
noncomputable def estimateDropZone (b : BattedBall) : Pos :=
  estimateDropZoneCore 3 b

/-- `calculateCatchProbability` of the legacy engine.  Home-run balls return
early with a probability capped at 5 %; otherwise a base 0.1 is adjusted by
outfielder depth/gap factors and by ball-type skill bonuses, capped at 95 %. -/
noncomputable def calculateCatchProbability (b : BattedBall) (fielder : Player)
    (bt : BallType) : ℝ :=
  if b.homer then
    min (fielder.stats.fielding * 0.0025 + fielder.stats.running * 0.0025) 0.05
  else
    let p0 : ℝ := 0.1
    let pg : ℝ × ℝ :=
      if fielder.isOutfielder then
        let rangeFt :=
          if b.launch < 10 then min (ballRangeRawFt b) 120 else ballRangeRawFt b
        let depthBonus : ℝ :=
          if bt = BallType.FLY ∨ bt = BallType.LINE then
            (if rangeFt < 250 then -0.15 else if 350 < rangeFt then -0.15 else 0)
          else 0
        let gapFactor : ℝ := if -10 ≤ b.attack ∧ b.attack ≤ 10 then 0.7 else 1.0
        (p0 + depthBonus, gapFactor)
      else (p0, 1.0)
    let p2 := pg.1 * pg.2
    let p3 :=
      if bt = BallType.LINE then p2 + fielder.stats.fielding * 0.005
      else if bt = BallType.POP then
        p2 + fielder.stats.fielding * 0.030 + fielder.stats.running * 0.020
      else if bt = BallType.FLY then
        p2 + fielder.stats.fielding * 0.015 + fielder.stats.running * 0.015
      else p2
    min p3 0.95

/-- `getFieldingSuccessRate` of the legacy engine. -/
noncomputable def getFieldingSuccessRate (fielder : Player) : ℝ :=
  min (0.1 + fielder.stats.fielding * 0.03) 0.90

/-- Outcome alternatives of `attemptTagUpAdvance`. -/
inductive TagUpOutcome where
  | SAFE
  | OUT
  | STAYED
deriving DecidableEq

/-- Success probability of the close-play branch of `attemptTagUpAdvance`
(`successProb` in the source), exposed for the monotonicity analysis. -/
noncomputable def tagUpCloseSuccessProb (runner fielder : Player) : ℝ :=
  let runnerSpeed := 27 + runner.stats.running * 1.5
  let throwSpeed := 70 + fielder.stats.fielding * 1.5
  let throwDistance : ℝ := if fielder.isInfielder then 90 else 150
  let runnerTime := 60 / runnerSpeed
  let throwTime := throwDistance / throwSpeed
  let reactionTime := 0.1 - fielder.stats.fielding * 0.03
  let timeMargin := runnerTime - (throwTime + reactionTime)
  0.1 + timeMargin * 0.05 + runner.stats.running * 0.02

/-- The decision margin of `attemptTagUpAdvance` (`timeMargin` in the
source). -/
noncomputable def tagUpTimeMargin (runner fielder : Player) : ℝ :=
  let runnerSpeed := 27 + runner.stats.running * 1.5
  let throwSpeed := 70 + fielder.stats.fielding * 1.5
  let throwDistance : ℝ := if fielder.isInfielder then 90 else 150
  60 / runnerSpeed - (throwDistance / throwSpeed + (0.1 - fielder.stats.fielding * 0.03))

/-- `attemptTagUpAdvance` of the legacy engine.  The source's `fromBase` and
`toBase` parameters do not influence the computation and are omitted.  A
random draw is consumed only in the close-play branch, mirroring the call
site of `Math.random()`. -/
noncomputable def attemptTagUpAdvance (runner fielder : Player) (rnd : Rnd)
    (i : ℕ) : TagUpOutcome × ℕ :=
  let timeMargin := tagUpTimeMargin runner fielder
  let aggressionFactor := runner.stats.running * 0.1
  if 1.0 + aggressionFactor < timeMargin then (TagUpOutcome.SAFE, i)
  else if timeMargin < -0.5 then (TagUpOutcome.STAYED, i)
  else
    (if rnd i < tagUpCloseSuccessProb runner fielder then TagUpOutcome.SAFE
     else TagUpOutcome.OUT, i + 1)

/-- `handleTagUp` of the legacy engine: the runner on third, then the runner
on second, then (30 % of the time) the runner on first attempt tag-up
advances; an advance from third scores a run, an OUT result records an out,
STAYED (and a successful advance of a trailing runner) writes the runner into
the final bases.  Returns (runs, outs, final bases, next draw index). -/
noncomputable def handleTagUp (runners : Bases Player) (catchingFielder : Player)
    (rnd : Rnd) (i : ℕ) : ℕ × ℕ × Bases Player × ℕ :=
  let fb0 : Bases Player := {}
  let step3 : ℕ × ℕ × Bases Player × ℕ :=
    match runners.third with
    | none => (0, 0, fb0, i)
    | some runner =>
      let r := attemptTagUpAdvance runner catchingFielder rnd i
      match r.1 with
      | TagUpOutcome.SAFE => (1, 0, fb0, r.2)
      | TagUpOutcome.OUT => (0, 1, fb0, r.2)
      | TagUpOutcome.STAYED => (0, 0, { fb0 with third := some runner }, r.2)
  let step2 : ℕ × ℕ × Bases Player × ℕ :=
    match runners.second with
    | none => step3
    | some runner =>
      let r := attemptTagUpAdvance runner catchingFielder rnd step3.2.2.2
      match r.1 with
      | TagUpOutcome.SAFE =>
        (step3.1, step3.2.1, { step3.2.2.1 with third := some runner }, r.2)
      | TagUpOutcome.OUT => (step3.1, step3.2.1 + 1, step3.2.2.1, r.2)
      | TagUpOutcome.STAYED =>
        (step3.1, step3.2.1, { step3.2.2.1 with second := some runner }, r.2)
  match runners.first with
  | none => step2
  | some runner =>
    let j := step2.2.2.2
    if rnd j < 0.3 then
      let r := attemptTagUpAdvance runner catchingFielder rnd (j + 1)
      match r.1 with
      | TagUpOutcome.SAFE =>
        (step2.1, step2.2.1, { step2.2.2.1 with second := some runner }, r.2)
      | TagUpOutcome.OUT => (step2.1, step2.2.1 + 1, step2.2.2.1, r.2)
      | TagUpOutcome.STAYED =>
        (step2.1, step2.2.1, { step2.2.2.1 with first := some runner }, r.2)
    else
      (step2.1, step2.2.1, { step2.2.2.1 with first := some runner }, j + 1)

/-- `getRunsFromHomer` of the legacy engine: one run per occupied base plus
one for the batter. -/
def getRunsFromHomer (runners : Bases Player) : ℕ := runners.count + 1

end Legacy

end Softball

namespace Softball

/-- Bases including home, for runners in motion. -/
inductive Base where
  | home
  | first
  | second
  | third
deriving DecidableEq

/-- Target-base priority used by `selectTargetRunner` (home > third > second
> first). -/
def basePriority : Base → ℕ
  | Base.home => 4
  | Base.third => 3
  | Base.second => 2
  | Base.first => 1

/-- `getNextBase` of the legacy engine. -/
def getNextBase : Base → Base
  | Base.home => Base.first
  | Base.first => Base.second
  | Base.second => Base.third
  | Base.third => Base.home

namespace Legacy

/-- `RunnerInMotion` of the legacy engine. -/
structure RunnerInMotion where
  player : Player
  startBase : Base
  currentBase : Base
  targetBase : Base
  isForced : Bool
  canTagUp : Bool
  hasTaggedUp : Bool

/-- Placeholder runner for (never reached) out-of-range list reads. -/
def defRunner : RunnerInMotion :=
  ⟨{}, Base.home, Base.home, Base.first, true, false, false⟩

/-- `initializeRunners` of the legacy engine (renamed): batter to first
(forced), runner on first forced, runner on second forced only with a runner
on first, runner on third forced only with bases loaded. -/
def initRunners (bases : Bases Player) (batter : Player) : List RunnerInMotion :=
  [⟨batter, Base.home, Base.home, Base.first, true, false, false⟩] ++
  (match bases.first with
   | some p => [⟨p, Base.first, Base.first, Base.second, true, false, false⟩]
   | none => []) ++
  (match bases.second with
   | some p => [⟨p, Base.second, Base.second, Base.third, bases.first.isSome, false, false⟩]
   | none => []) ++
  (match bases.third with
   | some p => [⟨p, Base.third, Base.third, Base.home,
       bases.second.isSome && bases.first.isSome, false, false⟩]
   | none => [])

/-- `selectTargetRunner` of the legacy engine, returning the index of the
first runner of maximal target-base priority (the source scans with a strict
comparison starting from `runners[0]`). -/
def selectTargetIdx (rs : List RunnerInMotion) : Option ℕ :=
  match rs with
  | [] => none
  | r0 :: _ =>
    some (rs.enum.foldl
      (fun acc p =>
        if acc.2 < basePriority p.2.targetBase then (p.1, basePriority p.2.targetBase)
        else acc)
      (0, basePriority r0.targetBase)).1

/-- `calculateFieldingTime` of the legacy engine. -/
noncomputable def calculateFieldingTime (fielder : Player) (bt : BallType) : ℝ :=
  let baseTime : ℝ :=
    match bt with
    | BallType.GROUND => 1.2
    | BallType.LINE => 1.5
    | BallType.FLY => 2.0
    | BallType.POP => 1.8
  max (baseTime - fielder.stats.fielding * 0.05) 0.5

/-- Outcome alternatives of `attemptPlay`. -/
inductive PlayCall where
  | OUT
  | SAFE
deriving DecidableEq

/-- `attemptPlay` of the legacy engine: a force play is a strict time race,
a tag play adds tag time and resolves near-ties (margin below 0.2 s in
absolute value) by a draw with 45 % out probability. -/
noncomputable def attemptPlay (runner : RunnerInMotion) (fielder : Player)
    (timeDelay : ℝ) (rnd : Rnd) (i : ℕ) : PlayCall × ℕ :=
  let runnerSpeed := 27 + runner.player.stats.running * 1.5
  let throwSpeed := 70 + fielder.stats.fielding * 1.5
  let throwDistance : ℝ := if fielder.isOutfielder then 200 else 90
  let runnerTime := 60 / runnerSpeed
  let throwTime := throwDistance / throwSpeed + timeDelay
  if runner.isForced then
    (if throwTime < runnerTime then PlayCall.OUT else PlayCall.SAFE, i)
  else
    let tagTime := 0.3 - fielder.stats.fielding * 0.02
    let totalFielderTime := throwTime + tagTime
    let margin := runnerTime - totalFielderTime
    if |margin| < 0.2 then
      (if rnd i < 0.45 then PlayCall.OUT else PlayCall.SAFE, i + 1)
    else
      (if totalFielderTime < runnerTime then PlayCall.OUT else PlayCall.SAFE, i)

/-- Legacy game state touched by `simulateFielding`: base occupancy, the outs
counter, the batting team's score (the target of `Game.addRuns`) and the
fielding team. -/
structure GameSt where
  basesOccupied : Bases Player
  outs : ℕ
  battingScore : ℕ
  fieldingTeam : Team

/-- `getFielderAtBase` of the legacy engine. -/
def getFielderAtBase (base : Base) (g : GameSt) : Player :=
  match base with
  | Base.first => g.fieldingTeam.byPos Pos.firstBase
  | Base.second => g.fieldingTeam.byPos Pos.secondBase
  | Base.third => g.fieldingTeam.byPos Pos.thirdBase
  | Base.home => g.fieldingTeam.byPos Pos.catcher

/-- `shouldRunnerAdvanceExtra` of the legacy engine (one draw, always
consumed). -/
noncomputable def shouldRunnerAdvanceExtra (runner : RunnerInMotion)
    (bt : BallType) (throwCount : ℕ) (rnd : Rnd) (i : ℕ) : Bool × ℕ :=
  let baseChance : ℝ := if bt = BallType.GROUND then 0.3 else 0.1
  let totalChance := baseChance + throwCount * 0.15 + runner.player.stats.running * 0.02
  (rnd i < totalChance, i + 1)

/-- One while-iteration bundle of `simulateRunnerAdvancement`: the loop body
of the legacy engine, structurally recursive on the remaining throw budget
(`MAX_THROWS = 3`); `tc` is the current `throwCount`. -/
noncomputable def advLoop (g : GameSt) (bt : BallType) (fieldingTime : ℝ) (rnd : Rnd) :
    ℕ → ℕ → List RunnerInMotion → Player → ℕ → ℕ → ℕ →
      ℕ × ℕ × List RunnerInMotion × ℕ
  | 0, _, act, _, outs, runs, i => (outs, runs, act, i)
  | fuel + 1, tc, act, curF, outs, runs, i =>
    if act.isEmpty ∨ 3 ≤ outs then (outs, runs, act, i)
    else
      match selectTargetIdx act with
      | none => (outs, runs, act, i)
      | some ti =>
        let target := act.getD ti defRunner
        let pr := attemptPlay target curF (fieldingTime + tc * 0.5) rnd i
        match pr.1 with
        | PlayCall.OUT =>
          let outs1 := outs + 1
          let act1 := act.eraseIdx ti
          let dp : ℕ × List RunnerInMotion × ℕ :=
            if outs1 < 2 ∧ ¬act1.isEmpty ∧ tc = 0 then
              match selectTargetIdx act1 with
              | none => (outs1, act1, pr.2)
              | some nti =>
                let nt := act1.getD nti defRunner
                if nt.isForced then
                  let nf := getFielderAtBase nt.targetBase g
                  let dpr := attemptPlay nt nf 0.3 rnd pr.2
                  if dpr.1 = PlayCall.OUT then (outs1 + 1, act1.eraseIdx nti, dpr.2)
                  else (outs1, act1, dpr.2)
                else (outs1, act1, pr.2)
            else (outs1, act1, pr.2)
          let curF1 :=
            if target.targetBase ≠ Base.home then getFielderAtBase target.targetBase g
            else curF
          advLoop g bt fieldingTime rnd fuel (tc + 1) dp.2.1 curF1 dp.1 runs dp.2.2
        | PlayCall.SAFE =>
          let t1 := { target with currentBase := target.targetBase }
          if t1.targetBase = Base.home then
            let act1 := act.eraseIdx ti
            advLoop g bt fieldingTime rnd fuel (tc + 1) act1 curF outs (runs + 1) pr.2
          else
            let adv := shouldRunnerAdvanceExtra t1 bt tc rnd pr.2
            let t2 :=
              if adv.1 then
                { t1 with targetBase := getNextBase t1.currentBase, isForced := false }
              else t1
            let act1 := act.set ti t2
            let curF1 :=
              if t2.targetBase ≠ Base.home then getFielderAtBase t2.targetBase g
              else curF
            advLoop g bt fieldingTime rnd fuel (tc + 1) act1 curF1 outs runs adv.2

/-- Final placement of the runners still active when the advancement loop
ends (the two trailing loops of `simulateRunnerAdvancement`): every remaining
runner reaches its target base; later runners overwrite earlier ones on the
same base, and a runner whose target is home is dropped. -/
def finishRunners (rs : List RunnerInMotion) : Bases Player :=
  rs.foldl
    (fun fb r =>
      match r.targetBase with
      | Base.first => { fb with first := some r.player }
      | Base.second => { fb with second := some r.player }
      | Base.third => { fb with third := some r.player }
      | Base.home => fb)
    {}

/-- `simulateRunnerAdvancement` of the legacy engine: run the throw loop
(at most 3 defensive actions), then place the surviving runners.  Returns
(outs, runs, final bases, next draw index). -/
noncomputable def simulateRunnerAdvancement (runners : List RunnerInMotion)
    (primaryFielder : Player) (g : GameSt) (bt : BallType) (rnd : Rnd) (i : ℕ) :
    ℕ × ℕ × Bases Player × ℕ :=
  let fieldingTime := calculateFieldingTime primaryFielder bt
  let r := advLoop g bt fieldingTime rnd 3 0 runners primaryFielder 0 0 i
  (r.1, r.2.1, finishRunners r.2.2.1, r.2.2.2)

/-- Name comparison used by `determinePlayType` (the source compares
`firstname`/`lastname` fields). -/
def sameName (o : Option Player) (p : Player) : Bool :=
  match o with
  | some q => q.firstname == p.firstname && q.lastname == p.lastname
  | none => false

/-- `determinePlayType` of the legacy engine.  Note that it never yields
`HOME_RUN`. -/
def determinePlayType (batter : Player) (fb : Bases Player) (outsRecorded : ℕ) :
    PlayType :=
  if 3 ≤ outsRecorded then PlayType.TRIPLE_PLAY
  else if 2 ≤ outsRecorded then PlayType.DOUBLE_PLAY
  else if sameName fb.first batter then PlayType.SINGLE
  else if sameName fb.second batter then PlayType.DOUBLE
  else if sameName fb.third batter then PlayType.TRIPLE
  else if 0 < outsRecorded then PlayType.OUT
  else PlayType.SINGLE

/-- `FieldOutcome` of the legacy engine (`primary_fielder`, `playType`,
`updatedBases`). -/
structure FieldOutcome where
  primary_fielder : Player
  playType : PlayType
  updatedBases : Bases Player

/-- Resolution phase of the legacy `simulateFielding`, after the catch roll:
short-circuit uncaught home runs, run the tag-up branch on a catch, otherwise
possibly deflect a missed infield ball to the outfield and resolve runner
advancement.  Returns the outcome, the mutated game state, and the next draw
index. -/
noncomputable def simulateFieldingResolve (b : BattedBall) (g : GameSt)
    (rnd : Rnd) (ballCaught : Bool) (i1 : ℕ) : FieldOutcome × GameSt × ℕ :=
  let ballType := classifyBall b
  let initialRunners := g.basesOccupied
  let fielder0 := g.fieldingTeam.byPos (estimateDropZone b)
  let outsRecorded0 : ℕ := if ballCaught then 1 else 0
  if b.homer ∧ ¬ballCaught then
    let runsScored := getRunsFromHomer initialRunners
    (⟨fielder0, PlayType.HOME_RUN, {}⟩,
     { g with
        battingScore := g.battingScore + runsScored
        basesOccupied := {}
        outs := g.outs + outsRecorded0 },
     i1)
  else if ballCaught then
    let t := handleTagUp initialRunners fielder0 rnd i1
    let outsTotal := outsRecorded0 + t.2.1
    let playType := if 2 ≤ outsTotal then PlayType.DOUBLE_PLAY else PlayType.OUT
    (⟨fielder0, playType, t.2.2.1⟩,
     { g with
        battingScore := g.battingScore + t.1
        outs := g.outs + outsTotal
        basesOccupied := t.2.2.1 },
     t.2.2.2)
  else
    let deflect : Player × ℕ :=
      if fielder0.isInfielder ∧ (ballType = BallType.LINE ∨ ballType = BallType.GROUND) then
        if getFieldingSuccessRate fielder0 < rnd i1 then
          let ofPos :=
            if b.attack < -20 then Pos.leftField
            else if 20 < b.attack then Pos.rightField
            else Pos.centerField
          (g.fieldingTeam.byPos ofPos, i1 + 1)
        else (fielder0, i1 + 1)
      else (fielder0, i1)
    let fielder1 := deflect.1
    let runners := initRunners initialRunners b.batter
    let adv := simulateRunnerAdvancement runners fielder1 g ballType rnd deflect.2
    let outsTotal := outsRecorded0 + adv.1
    let runsTotal := adv.2.1
    let finalBases := adv.2.2.1
    (⟨fielder1, determinePlayType b.batter finalBases outsTotal, finalBases⟩,
     { g with
        battingScore := g.battingScore + runsTotal
        outs := g.outs + outsTotal
        basesOccupied := finalBases },
     adv.2.2.2)

/-- `simulateFielding` of the legacy engine: estimate the drop zone and
primary fielder, roll the air catch for non-grounders, and resolve the play
(home-run shortcut, tag-ups on a catch, or runner advancement) via
`simulateFieldingResolve`. -/
noncomputable def simulateFielding (b : BattedBall) (g : GameSt) (rnd : Rnd)
    (i : ℕ) : FieldOutcome × GameSt × ℕ :=
  let ballType := classifyBall b
  let fielder0 := g.fieldingTeam.byPos (estimateDropZone b)
  let catchRoll : Bool × ℕ :=
    if ballType ≠ BallType.GROUND then
      (rnd i < calculateCatchProbability b fielder0 ballType, i + 1)
    else (false, i)
  simulateFieldingResolve b g rnd catchRoll.1 catchRoll.2

end Legacy

end Softball

namespace Softball

namespace FieldingTs

/-- `isOutfielder` on positions, from `src/game/fielding.ts` (`OUTFIELD`
membership). -/
def posIsOutfielder (p : Pos) : Bool :=
  p = Pos.leftField ∨ p = Pos.centerField ∨ p = Pos.rightField

/-- `isInfielder` on positions, from `src/game/fielding.ts` (`INFIELD`
membership; unlike `Player.isInfielder`, the battery is excluded here). -/
def posIsInfielder (p : Pos) : Bool :=
  p = Pos.firstBase ∨ p = Pos.secondBase ∨ p = Pos.thirdBase ∨ p = Pos.shortstop

/-- `isBattery` on positions, from `src/game/fielding.ts`. -/
def posIsBattery (p : Pos) : Bool :=
  p = Pos.pitcher ∨ p = Pos.catcher

/-- The logistic helper used throughout `src/game/fielding.ts`. -/
noncomputable def logistic (x : ℝ) : ℝ := 1 / (1 + Real.exp (-x))

/-- `estimateDropZone` of `src/game/fielding.ts`
(`PITCHER_ATTACK_CONE_DEG = 5`). -/
noncomputable def estimateDropZone (b : BattedBall) : Pos :=
  estimateDropZoneCore 5 b

/-- `catchProbability` of `src/game/fielding.ts`: logistic hang-time curves
per ball type, position emphasis, a skill factor, a hard-liner velocity
penalty, a forced zero for over-the-fence balls, clamped to [0, 0.995]. -/
noncomputable def catchProbability (b : BattedBall) (fielder : Player) (pos : Pos)
    (bt : BallType) (airTime : ℝ) : ℝ :=
  let base : ℝ :=
    match bt with
    | BallType.POP => logistic ((airTime - 1.2) / 0.4)
    | BallType.FLY => logistic ((airTime - 1.8) / 0.5)
    | BallType.LINE => 0.5 * logistic ((airTime - 0.6) / 0.18)
    | BallType.GROUND => 0
  let base :=
    if posIsOutfielder pos ∧ (bt = BallType.FLY ∨ bt = BallType.POP) then base * 0.8
    else base
  let base := if posIsInfielder pos ∧ bt = BallType.LINE then base * 0.5 else base
  let s := (fielder.stats.fielding / 10) ^ (0.8 : ℝ)
  let p := base * (0.55 + 0.65 * s)
  let p :=
    if bt = BallType.LINE then p * (1 - clamp ((b.velo - 70) / 60) 0 0.35) else p
  let p := if b.homer ∧ 0 < b.launch then 0 else p
  clamp p 0 0.995

/-- `fieldCleanlyProbability` of `src/game/fielding.ts`. -/
noncomputable def fieldCleanlyProbability (b : BattedBall) (fielder : Player)
    (pos : Pos) (bt : BallType) : ℝ :=
  let skill := fielder.stats.fielding / 10
  let base : ℝ :=
    if bt = BallType.GROUND then
      if posIsInfielder pos ∨ posIsBattery pos then
        0.85 - clamp ((b.velo - 55) / 80) 0 0.12 + 0.1 * skill ^ (0.8 : ℝ)
      else
        0.88 + 0.08 * skill ^ (0.8 : ℝ) - clamp ((b.velo - 60) / 100) 0 0.08
    else
      0.9 + 0.06 * skill ^ (0.8 : ℝ) - clamp ((b.velo - 70) / 120) 0 0.06
  clamp base 0.5 0.99

/-- `chooseBaseHitOutcome` of `src/game/fielding.ts`: batter bases and the
hit/out classification for a ball that was not caught in the air.  Returns
(bases, outcome, next draw index); the source's unused `p1` normalization is
omitted. -/
noncomputable def chooseBaseHitOutcome (b : BattedBall) (fielder : Player)
    (pos : Pos) (bt : BallType) (clean : Bool) (rnd : Rnd) (i : ℕ) :
    ℕ × PlayType × ℕ :=
  let running := b.batter.stats.running / 10
  let fielding := fielder.stats.fielding / 10
  if ¬posIsOutfielder pos then
    if bt = BallType.GROUND then
      let pOut := clamp
        (0.68 + 0.18 * fielding ^ (0.9 : ℝ) - 0.25 * running ^ (0.9 : ℝ) -
          clamp ((b.velo - 55) / 80) 0 0.12) 0.1 0.95
      if rnd i < pOut ∧ clean then (0, PlayType.OUT, i + 1)
      else if ¬clean then
        let takeExtra := 0.15 + 0.2 * running - 0.1 * fielding
        if rnd (i + 1) < clamp takeExtra 0 0.5 then (2, PlayType.DOUBLE, i + 2)
        else (1, PlayType.SINGLE, i + 2)
      else (1, PlayType.SINGLE, i + 1)
    else
      let hustleDouble :=
        0.05 + 0.18 * running + (if clean then 0 else 0.12) - 0.1 * fielding
      if rnd i < clamp hustleDouble 0 0.35 then (2, PlayType.DOUBLE, i + 1)
      else (1, PlayType.SINGLE, i + 1)
  else
    let angle := |b.attack|
    let gapBonus : ℝ := if 20 ≤ angle ∧ angle ≤ 45 then 0.1 else 0
    let lineBonus : ℝ := if 60 ≤ angle then 0.18 else 0
    let veloFactor := clamp ((b.velo - 55) / 35) 0 1
    let p2 := 0.1 + 0.45 * veloFactor + gapBonus + lineBonus
    let p3 := 0.02 + 0.12 * veloFactor
    let p2 := if bt = BallType.LINE then p2 + 0.08 else p2
    let p2 := if bt = BallType.FLY then p2 + 0.03 else p2
    let p2 := p2 + 0.12 * running
    let p3 := p3 + 0.08 * running
    let strategyHold := 0.1 + 0.2 * fielding + (if clean then 0.1 else 0)
    let p2 := clamp (p2 - strategyHold) 0 0.85
    let p3 := clamp (p3 - strategyHold * 0.6) 0 0.35
    let r := rnd i
    if r < p3 then (3, PlayType.TRIPLE, i + 1)
    else if r < p3 + p2 then (2, PlayType.DOUBLE, i + 1)
    else (1, PlayType.SINGLE, i + 1)

/-- `FieldResponse` of `src/game/fielding.ts`. -/
structure FieldResponse where
  fielder : Player
  hit : Bool
  error : Bool
  result : PlayType
  basesTaken : ℕ

/-- `simulateFielding` of `src/game/fielding.ts`: over-the-fence balls with
positive launch short-circuit to a HOME_RUN response before any random draw;
otherwise the drop-zone fielder attempts a catch (non-grounders only), and
an uncaught ball is resolved through clean-fielding and
`chooseBaseHitOutcome`. -/
noncomputable def simulateFielding (b : BattedBall) (team : Team) (rnd : Rnd)
    (i : ℕ) : FieldResponse × ℕ :=
  if b.homer ∧ 0 < b.launch then
    (⟨team.firstPlayer, true, false, PlayType.HOME_RUN, 4⟩, i)
  else
    let pos := estimateDropZone b
    let fielder := team.byPos pos
    let airTime := calculateAirTime b
    let bt := classifyBall b
    let catchRoll : Bool × ℕ :=
      if bt ≠ BallType.GROUND then
        (rnd i < catchProbability b fielder pos bt airTime, i + 1)
      else (false, i)
    if catchRoll.1 then (⟨fielder, false, false, PlayType.OUT, 0⟩, catchRoll.2)
    else
      let cleanP := fieldCleanlyProbability b fielder pos bt
      let clean := rnd catchRoll.2 < cleanP
      let o := chooseBaseHitOutcome b fielder pos bt clean rnd (catchRoll.2 + 1)
      (⟨fielder, true, (¬clean ∧ 0 < o.1 : Bool), o.2.1, o.1⟩, o.2.2)

/-- Runner-state input of `simulateFieldingWithRunners`. -/
structure RunnersWR where
  first : Option Player := none
  second : Option Player := none
  third : Option Player := none
  outs : ℕ := 0

/-- Base names used in `runnersOut` lists. -/
inductive BaseName where
  | first
  | second
  | third
deriving DecidableEq

/-- Per-runner advancement record (`runnerAdvances`: a partial map; `none`
means the key is absent). -/
structure Advances where
  first : Option ℕ := none
  second : Option ℕ := none
  third : Option ℕ := none

/-- `PlayResult` of `src/game/fielding.ts`. -/
structure PlayResult where
  field : FieldResponse
  outs : ℕ
  runs : ℕ
  batterBases : ℕ
  advances : Advances
  runnersOut : List BaseName

/-- `chooseOutfieldThrowTarget` of `src/game/fielding.ts` (two bases ahead of
the lead runner; both `second` branches of the source return home). -/
def chooseOutfieldThrowTarget (r : RunnersWR) : ℕ :=
  if r.second.isSome then 4
  else if r.first.isSome then 3
  else 2

/-- Throw distance categories. -/
inductive ThrowDist where
  | SHORT
  | MEDIUM
  | LONG
deriving DecidableEq

/-- `estimateThrowDistanceCategory` of `src/game/fielding.ts`. -/
def estimateThrowDistanceCategory (pos : Pos) (target : ℕ) : ThrowDist :=
  if posIsOutfielder pos then
    if target = 4 ∨ target = 3 then ThrowDist.LONG
    else if target = 2 then ThrowDist.MEDIUM
    else ThrowDist.LONG
  else if posIsInfielder pos then
    if target = 1 ∨ target = 2 then ThrowDist.SHORT
    else if target = 3 then ThrowDist.MEDIUM
    else ThrowDist.MEDIUM
  else if target = 4 then ThrowDist.MEDIUM
  else ThrowDist.SHORT

/-- `throwOutProbability` of `src/game/fielding.ts`. -/
noncomputable def throwOutProbability (dist : ThrowDist) (fielderSkill runnerSpeed : ℝ)
    (bt : BallType) : ℝ :=
  let base : ℝ :=
    match dist with
    | ThrowDist.SHORT => 0.8
    | ThrowDist.MEDIUM => 0.55
    | ThrowDist.LONG => 0.3
  let base := base + 0.2 * (fielderSkill - 0.5) - 0.2 * (runnerSpeed - 0.5)
  let base :=
    if bt = BallType.FLY ∨ bt = BallType.POP then base - 0.05
    else if bt = BallType.GROUND then base + 0.05
    else base
  clamp base 0.05 0.95

/-- `tagUpAdvanceProb` of `src/game/fielding.ts`: hang-time logistic lowered
by the fielder's arm, clamped per origin base. -/
noncomputable def tagUpAdvanceProb (airTime armSkill : ℝ) (fromBase : ℕ) : ℝ :=
  let arm := clamp armSkill 0 1
  if fromBase = 3 then
    clamp (logistic ((airTime - 2.8) / 0.25) - 0.2 * (arm - 0.5)) 0.2 0.9
  else if fromBase = 2 then
    clamp (logistic ((airTime - 3.0) / 0.3) - 0.15 * (arm - 0.5)) 0.15 0.75
  else
    clamp (logistic ((airTime - 3.2) / 0.35) - 0.12 * (arm - 0.5)) 0.1 0.6

/-- `speed` helper of `simulateFieldingWithRunners` (`?? 0` on an absent
runner). -/
noncomputable def runnerSpeedOf (p : Option Player) : ℝ :=
  clamp ((match p with | some q => q.stats.running | none => 0) / 10) 0 1

end FieldingTs

end Softball

namespace Softball

namespace FieldingTs

/-- The caught-ball (tag-up) section of `simulateFieldingWithRunners`:
with the catch already recorded as one out, outfield catches let the runner
on third (contested at home), then the runner on second (contested at third),
then the runner on first (uncontested) attempt tag-ups; infield catches allow
no tag-ups at all.  Returns (outs, runs, advances, runnersOut, next index). -/
noncomputable def tagUpSection (runners : RunnersWR) (pos : Pos) (arm airTime : ℝ)
    (bt : BallType) (rnd : Rnd) (i : ℕ) :
    ℕ × ℕ × Advances × List BaseName × ℕ :=
  if posIsOutfielder pos then
    let s3 : ℕ × ℕ × Advances × List BaseName × ℕ :=
      match runners.third with
      | none => (1, 0, {}, [], i)
      | some r3 =>
        if rnd i < tagUpAdvanceProb airTime arm 3 then
          let pOut := throwOutProbability (estimateThrowDistanceCategory pos 4) arm
            (runnerSpeedOf (some r3)) bt
          if rnd (i + 1) < pOut then (2, 0, {}, [BaseName.third], i + 2)
          else (1, 1, { third := some 1 }, [], i + 2)
        else (1, 0, {}, [], i + 1)
    let s2 : ℕ × ℕ × Advances × List BaseName × ℕ :=
      match runners.second with
      | none => s3
      | some r2 =>
        let j := s3.2.2.2.2
        if rnd j < tagUpAdvanceProb airTime arm 2 then
          let pOut := throwOutProbability (estimateThrowDistanceCategory pos 3) arm
            (runnerSpeedOf (some r2)) bt
          if rnd (j + 1) < pOut then
            (s3.1 + 1, s3.2.1, s3.2.2.1, s3.2.2.2.1 ++ [BaseName.second], j + 2)
          else
            (s3.1, s3.2.1, { s3.2.2.1 with second := some 1 }, s3.2.2.2.1, j + 2)
        else (s3.1, s3.2.1, s3.2.2.1, s3.2.2.2.1, j + 1)
    match runners.first with
    | none => s2
    | some _ =>
      let j := s2.2.2.2.2
      if rnd j < tagUpAdvanceProb airTime arm 1 then
        (s2.1, s2.2.1, { s2.2.2.1 with first := some 1 }, s2.2.2.2.1, j + 1)
      else (s2.1, s2.2.1, s2.2.2.1, s2.2.2.2.1, j + 1)
  else (1, 0, {}, [], i)

/-- The outfield-hit runner-advancement section of
`simulateFieldingWithRunners` (before the throw contest).  Returns
(runs, advances, next index). -/
noncomputable def ofHitAdvances (runners : RunnersWR) (batterTakes : ℕ)
    (gapFactor : ℝ) (rnd : Rnd) (i : ℕ) : ℕ × Advances × ℕ :=
  let s3 : ℕ × Advances × ℕ :=
    match runners.third with
    | none => (0, {}, i)
    | some r3 =>
      let pScore := (if 2 ≤ batterTakes then (0.95 : ℝ) else 0.7) +
        0.15 * runnerSpeedOf (some r3) + gapFactor
      if rnd i < clamp pScore 0 0.99 then (1, { third := some 1 }, i + 1)
      else (0, {}, i + 1)
  let s2 : ℕ × Advances × ℕ :=
    match runners.second with
    | none => s3
    | some r2 =>
      let j := s3.2.2
      let pScore := (if 2 ≤ batterTakes then (0.85 : ℝ) else 0.45) +
        0.2 * runnerSpeedOf (some r2) + gapFactor
      if rnd j < clamp pScore 0 0.99 then
        (s3.1 + 1, { s3.2.1 with second := some 2 }, j + 1)
      else (s3.1, { s3.2.1 with second := some 1 }, j + 1)
  match runners.first with
  | none => s2
  | some r1 =>
    let j := s2.2.2
    let toThird := clamp
      (0.45 + 0.35 * runnerSpeedOf (some r1) + gapFactor +
        (if 2 ≤ batterTakes then 0.15 else 0)) 0.15 0.9
    if rnd j < toThird then (s2.1, { s2.2.1 with first := some 2 }, j + 1)
    else (s2.1, { s2.2.1 with first := some 1 }, j + 1)

/-- The infield-hit runner-advancement section of
`simulateFieldingWithRunners`.  Returns (runs, advances, next index). -/
noncomputable def ifHitAdvances (runners : RunnersWR) (rnd : Rnd) (i : ℕ) :
    ℕ × Advances × ℕ :=
  let s3 : ℕ × Advances × ℕ :=
    match runners.third with
    | none => (0, {}, i)
    | some r3 =>
      if rnd i < 0.2 + 0.35 * runnerSpeedOf (some r3) then
        (1, { third := some 1 }, i + 1)
      else (0, {}, i + 1)
  let s2 : ℕ × Advances × ℕ :=
    match runners.second with
    | none => s3
    | some r2 =>
      let j := s3.2.2
      if rnd j < 0.3 + 0.3 * runnerSpeedOf (some r2) then
        (s3.1, { s3.2.1 with second := some 1 }, j + 1)
      else (s3.1, { s3.2.1 with second := some 0 }, j + 1)
  match runners.first with
  | none => s2
  | some r1 =>
    let j := s2.2.2
    if rnd j < 0.65 + 0.2 * runnerSpeedOf (some r1) then
      (s2.1, { s2.2.1 with first := some 1 }, j + 1)
    else (s2.1, { s2.2.1 with first := some 0 }, j + 1)

/-- Contested-runner selection of `simulateFieldingWithRunners`: the runner
whose advance matches the strategic throw target. -/
def contestedRunner (runners : RunnersWR) (adv : Advances) (target : ℕ) :
    Option (BaseName × ℕ) :=
  if target = 4 then
    if runners.second.isSome ∧ adv.second = some 2 then some (BaseName.second, 2)
    else if runners.third.isSome ∧ adv.third = some 1 then some (BaseName.third, 1)
    else none
  else if target = 3 then
    if runners.first.isSome ∧ 2 ≤ adv.first.getD 0 then some (BaseName.first, 2)
    else if runners.second.isSome ∧ 1 ≤ adv.second.getD 0 then some (BaseName.second, 1)
    else none
  else if target = 2 then
    if runners.first.isSome ∧ 1 ≤ adv.first.getD 0 then some (BaseName.first, 1)
    else none
  else none

/-- Set one entry of an advances record to zero (reverting a cut-down
runner's advance). -/
def Advances.setZero (adv : Advances) (b : BaseName) : Advances :=
  match b with
  | BaseName.first => { adv with first := some 0 }
  | BaseName.second => { adv with second := some 0 }
  | BaseName.third => { adv with third := some 0 }

/-- Runner lookup by base name. -/
def runnerAt (runners : RunnersWR) (b : BaseName) : Option Player :=
  match b with
  | BaseName.first => runners.first
  | BaseName.second => runners.second
  | BaseName.third => runners.third

/-- `simulateFieldingWithRunners` of `src/game/fielding.ts`: resolve the
batter-only fielding, then the home-run shortcut, the caught-ball tag-up
section, or a base hit with runner advancement and a single throw contest on
the strategically targeted runner. -/
noncomputable def simulateFieldingWithRunners (runners : RunnersWR)
    (b : BattedBall) (team : Team) (rnd : Rnd) (i : ℕ) : PlayResult × ℕ :=
  let fr := simulateFielding b team rnd i
  let field := fr.1
  let i0 := fr.2
  let pos := estimateDropZone b
  let fielder := field.fielder
  let bt := classifyBall b
  let airTime := calculateAirTime b
  let arm := clamp (fielder.stats.fielding / 10) 0 1
  if field.result = PlayType.HOME_RUN ∧ field.basesTaken = 4 then
    let r3 : ℕ × Advances :=
      if runners.third.isSome then (1, { third := some 1 }) else (0, {})
    let r2 : ℕ × Advances :=
      if runners.second.isSome then (r3.1 + 1, { r3.2 with second := some 2 })
      else r3
    let r1 : ℕ × Advances :=
      if runners.first.isSome then (r2.1 + 1, { r2.2 with first := some 3 })
      else r2
    (⟨field, 0, r1.1 + 1, 4, r1.2, []⟩, i0)
  else if field.result = PlayType.OUT ∧ field.hit = false then
    let t := tagUpSection runners pos arm airTime bt rnd i0
    (⟨field, t.1, t.2.1, 0, t.2.2.1, t.2.2.2.1⟩, t.2.2.2.2)
  else
    let batterTakes := min 3 (max 1 field.basesTaken)
    let angle := |b.attack|
    let gapFactor : ℝ := if 20 ≤ angle ∧ angle ≤ 45 then 0.2 else 0
    if posIsOutfielder pos then
      let a := ofHitAdvances runners batterTakes gapFactor rnd i0
      let target := chooseOutfieldThrowTarget runners
      let dist := estimateThrowDistanceCategory pos target
      match contestedRunner runners a.2.1 target with
      | none => (⟨field, 0, a.1, batterTakes, a.2.1, []⟩, a.2.2)
      | some c =>
        match runnerAt runners c.1 with
        | none => (⟨field, 0, a.1, batterTakes, a.2.1, []⟩, a.2.2)
        | some runner =>
          let pOut := throwOutProbability dist arm (runnerSpeedOf (some runner)) bt
          if rnd a.2.2 < pOut then
            let runs1 :=
              if target = 4 ∧ (c.1 = BaseName.third ∨ c.1 = BaseName.second) then
                a.1 - 1
              else a.1
            (⟨field, 1, runs1, batterTakes, a.2.1.setZero c.1, [c.1]⟩, a.2.2 + 1)
          else (⟨field, 0, a.1, batterTakes, a.2.1, []⟩, a.2.2 + 1)
    else
      let a := ifHitAdvances runners rnd i0
      (⟨field, 0, a.1, batterTakes, a.2.1, []⟩, a.2.2)

end FieldingTs

end Softball

namespace Softball

/-- At-bat outcomes (`AtBatOutcome` in `src/game/types.ts`; the engine only
ever produces the first three). -/
inductive ABOutcome where
  | IN_PLAY
  | WALK
  | STRIKEOUT
  | GROUNDOUT
  | FLYOUT
deriving DecidableEq

/-- Contact result of one swing, abstracting `calculateHit`: no contact
(whiff), foul contact, or fair contact (the batted-ball payload carried by
the source is irrelevant to the at-bat control flow). -/
inductive Contact where
  | noContact
  | foulBall
  | fairBall
deriving DecidableEq

/-- One pitch iteration of `simulateAtBat` as seen by the orchestrator:
the pitch's strike flag (`simulatePitch`), the swing decision
(`calculateSwing`) and the contact result (`calculateHit`).  The three
stochastic collaborators are abstracted as an oracle stream. -/
structure PitchEvent where
  isStrike : Bool
  swung : Bool
  contact : Contact
deriving DecidableEq

/-- Result of `simulateAtBat` (outcome, final ball/strike counts, number of
pitches thrown). -/
structure ABResult where
  outcome : ABOutcome
  balls : ℕ
  strikes : ℕ
  pitchCount : ℕ
deriving DecidableEq

/-- The pitch loop of `simulateAtBat` (`src/game/simulateAtBat.ts`), with the
remaining pitch budget as fuel: a taken strike or a whiff increments strikes
(3 ⇒ STRIKEOUT), a taken ball increments balls (4 ⇒ WALK), foul contact
increments strikes only below two strikes and never ends the at-bat, fair
contact ends it with IN_PLAY, and an exhausted budget falls back to
STRIKEOUT when at least two strikes are on the board and WALK otherwise. -/
def atBatGo (ev : ℕ → PitchEvent) : ℕ → ℕ → ℕ → ℕ → ABResult
  | 0, b, s, n => ⟨if 2 ≤ s then ABOutcome.STRIKEOUT else ABOutcome.WALK, b, s, n⟩
  | fuel + 1, b, s, n =>
    let e := ev n
    if e.swung = false then
      if e.isStrike then
        if 2 ≤ s then ⟨ABOutcome.STRIKEOUT, b, s + 1, n + 1⟩
        else atBatGo ev fuel b (s + 1) (n + 1)
      else
        if 3 ≤ b then ⟨ABOutcome.WALK, b + 1, s, n + 1⟩
        else atBatGo ev fuel (b + 1) s (n + 1)
    else
      match e.contact with
      | Contact.noContact =>
        if 2 ≤ s then ⟨ABOutcome.STRIKEOUT, b, s + 1, n + 1⟩
        else atBatGo ev fuel b (s + 1) (n + 1)
      | Contact.foulBall =>
        if s < 2 then atBatGo ev fuel b (s + 1) (n + 1)
        else atBatGo ev fuel b s (n + 1)
      | Contact.fairBall => ⟨ABOutcome.IN_PLAY, b, s, n + 1⟩

/-- `simulateAtBat` of `src/game/simulateAtBat.ts`: the pitch loop starting
from an empty count with the 30-pitch safety cap (`MAX_PITCHES`). -/
def simulateAtBat (ev : ℕ → PitchEvent) : ABResult :=
  atBatGo ev 30 0 0 0

/-- `Game.handleWalk` (`src/game/Game.ts`): force advancement on a walk.
Returns (new bases, runs credited to the batting team via `addRuns`, the
method's `runsScored` return value).  The source initializes `runsScored`
to 0 and never increments it. -/
def handleWalk {α : Type} (bases : Bases α) (batter : α) : Bases α × ℕ × ℕ :=
  let moved : Bases α × ℕ :=
    if bases.first.isSome ∧ bases.second.isSome ∧ bases.third.isSome then
      ({ first := none, second := bases.first, third := bases.second }, 1)
    else if bases.first.isSome ∧ bases.second.isSome then
      ({ first := none, second := bases.first, third := bases.second }, 0)
    else if bases.first.isSome then
      ({ first := none, second := bases.first, third := bases.third }, 0)
    else (bases, 0)
  ({ moved.1 with first := some batter }, moved.2, 0)

/-- Abstract effect of one completed at-bat on the game, as `Game.simulate`
consumes it: a walk, a strikeout, or a ball in play whose fielding resolution
added `runs` to the batting team's score, added `outsDelta` outs, and left
`newBases` occupied (the net effect of `simulateFielding` mutating the game). -/
inductive AtBatEff (α : Type) where
  | walk
  | strikeout
  | inPlay (runs outsDelta : ℕ) (newBases : Bases α)
deriving DecidableEq

/-- Game-loop state of `Game.simulate` (`src/game/Game.ts`), generic in the
runner/batter token type. -/
structure SimSt (α : Type) where
  bases : Bases α
  outs : ℕ
  awayScore : ℕ
  homeScore : ℕ
  currentInning : ℕ
  isTopHalf : Bool
  awayBatterIndex : ℕ
  homeBatterIndex : ℕ
  isGameOver : Bool
  winnerIsHome : Option Bool
  runsAtStartOfHalf : ℕ
deriving DecidableEq

/-- The initial game state (`Game` constructor plus the locals of
`simulate`). -/
def initSimSt (α : Type) : SimSt α :=
  ⟨{}, 0, 0, 0, 1, true, 0, 0, false, none, 0⟩

/-- One iteration of the `while (!this.isGameOver)` loop of `Game.simulate`.
`startAway` is the `startingAwayScore` local, captured once before the loop;
`awayLineup`/`homeLineup` give the batter tokens; `ev k` is the abstract
effect of the `k`-th completed at-bat.  An at-bat iteration consumes one
effect (box-score bookkeeping, which touches no game state read by the loop,
is omitted); an end-of-half iteration consumes none and either ends the game
per the inning-9 rules or advances to the next half. -/
def simStep {α : Type} (startAway : ℕ) (awayLineup homeLineup : ℕ → α)
    (ev : ℕ → AtBatEff α) (p : SimSt α × ℕ) : SimSt α × ℕ :=
  let st := p.1
  let k := p.2
  if st.isGameOver then (st, k)
  else
    let st :=
      if st.outs = 0 then
        { st with runsAtStartOfHalf := if st.isTopHalf then st.awayScore else st.homeScore }
      else st
    if st.outs < 3 then
      let batter :=
        if st.isTopHalf then awayLineup (st.awayBatterIndex % 9)
        else homeLineup (st.homeBatterIndex % 9)
      let st1 :=
        match ev k with
        | AtBatEff.walk =>
          let w := handleWalk st.bases batter
          { st with
              bases := w.1
              awayScore := st.awayScore + (if st.isTopHalf then w.2.1 else 0)
              homeScore := st.homeScore + (if st.isTopHalf then 0 else w.2.1) }
        | AtBatEff.strikeout => { st with outs := st.outs + 1 }
        | AtBatEff.inPlay runs outsDelta newBases =>
          { st with
              bases := newBases
              outs := st.outs + outsDelta
              awayScore := st.awayScore + (if st.isTopHalf then runs else 0)
              homeScore := st.homeScore + (if st.isTopHalf then 0 else runs) }
      let st2 :=
        if st.isTopHalf then { st1 with awayBatterIndex := st1.awayBatterIndex + 1 }
        else { st1 with homeBatterIndex := st1.homeBatterIndex + 1 }
      (st2, k + 1)
    else
      -- end of half (outs ≥ 3)
      if 9 ≤ st.currentInning ∧ st.isTopHalf ∧ st.awayScore < st.homeScore ∧
          st.awayScore = startAway then
        ({ st with isGameOver := true, winnerIsHome := some true }, k)
      else if 9 ≤ st.currentInning ∧ st.isTopHalf = false ∧
          st.homeScore ≠ st.awayScore then
        ({ st with
            isGameOver := true
            winnerIsHome := some (decide (st.awayScore < st.homeScore)) }, k)
      else
        -- nextHalf(): increment the inning on a bottom-half wrap, flip the
        -- half, reset outs, clear the bases
        ({ st with
            currentInning := if st.isTopHalf then st.currentInning else st.currentInning + 1
            isTopHalf := ¬st.isTopHalf
            outs := 0
            bases := {} }, k)

/-- `n` iterations of the `Game.simulate` loop. -/
def simRun {α : Type} (startAway : ℕ) (awayLineup homeLineup : ℕ → α)
    (ev : ℕ → AtBatEff α) : ℕ → SimSt α × ℕ → SimSt α × ℕ
  | 0, p => p
  | n + 1, p => simRun startAway awayLineup homeLineup ev n
      (simStep startAway awayLineup homeLineup ev p)

end Softball

namespace Softball

lemma atBatGo_spec (ev : ℕ → PitchEvent) :
    ∀ fuel b s n, b ≤ 3 → s ≤ 2 → n + fuel = 30 →
      ((atBatGo ev fuel b s n).outcome = ABOutcome.WALK ∨
        (atBatGo ev fuel b s n).outcome = ABOutcome.STRIKEOUT ∨
        (atBatGo ev fuel b s n).outcome = ABOutcome.IN_PLAY) ∧
      ((atBatGo ev fuel b s n).outcome = ABOutcome.STRIKEOUT →
        (atBatGo ev fuel b s n).strikes = 3 ∨
          ((atBatGo ev fuel b s n).pitchCount = 30 ∧ (atBatGo ev fuel b s n).strikes = 2)) ∧
      ((atBatGo ev fuel b s n).outcome = ABOutcome.WALK →
        (atBatGo ev fuel b s n).balls = 4 ∨
          ((atBatGo ev fuel b s n).pitchCount = 30 ∧ (atBatGo ev fuel b s n).strikes ≤ 1)) := by
  intro fuel
  induction fuel with
  | zero =>
    intro b s n hb hs hn
    simp only [atBatGo]
    by_cases h2 : 2 ≤ s
    · simp [h2]
      omega
    · simp [h2]
      omega
  | succ fuel ih =>
    intro b s n hb hs hn
    simp only [atBatGo]
    by_cases hsw : (ev n).swung = false
    · simp only [hsw, if_true, eq_self_iff_true]
      by_cases hst : (ev n).isStrike
      · simp only [hst, if_true]
        by_cases h2 : 2 ≤ s
        · simp [h2]
          omega
        · simpa [h2] using ih b (s + 1) (n + 1) hb (by omega) (by omega)
      · simp only [hst, if_false]
        by_cases h3 : 3 ≤ b
        · simp [h3]
          omega
        · simpa [h3] using ih (b + 1) s (n + 1) (by omega) hs (by omega)
    · simp only [hsw, if_false]
      cases hc : (ev n).contact with
      | noContact =>
        by_cases h2 : 2 ≤ s
        · simp [h2]
          omega
        · simpa [h2] using ih b (s + 1) (n + 1) hb (by omega) (by omega)
      | foulBall =>
        by_cases h2 : s < 2
        · simpa [h2] using ih b (s + 1) (n + 1) hb (by omega) (by omega)
        · simpa [h2] using ih b s (n + 1) hb hs (by omega)
      | fairBall => simp

/-- C7: in `simulateAtBat` a foul with contact raises the strike count only
below two strikes and never ends the at-bat (so no third strike on a foul);
an exhausted 30-pitch budget deterministically resolves to STRIKEOUT when at
least two strikes are on the board and to WALK otherwise; and every at-bat
ends in WALK (on four balls or a low-strike cap), STRIKEOUT (on three
strikes or a two-strike cap), or IN_PLAY. -/
theorem c7_atBat_termination (ev : ℕ → PitchEvent) :
    ((simulateAtBat ev).outcome = ABOutcome.WALK ∨
      (simulateAtBat ev).outcome = ABOutcome.STRIKEOUT ∨
      (simulateAtBat ev).outcome = ABOutcome.IN_PLAY) ∧
    ((simulateAtBat ev).outcome = ABOutcome.STRIKEOUT →
      (simulateAtBat ev).strikes = 3 ∨
        ((simulateAtBat ev).pitchCount = 30 ∧ (simulateAtBat ev).strikes = 2)) ∧
    ((simulateAtBat ev).outcome = ABOutcome.WALK →
      (simulateAtBat ev).balls = 4 ∨
        ((simulateAtBat ev).pitchCount = 30 ∧ (simulateAtBat ev).strikes ≤ 1)) ∧
    (∀ b s n, atBatGo ev 0 b s n =
      ⟨if 2 ≤ s then ABOutcome.STRIKEOUT else ABOutcome.WALK, b, s, n⟩) ∧
    (∀ fuel b s n, (ev n).swung = true → (ev n).contact = Contact.foulBall →
      atBatGo ev (fuel + 1) b s n =
        atBatGo ev fuel b (if s < 2 then s + 1 else s) (n + 1)) := by
  obtain ⟨h1, h2, h3⟩ := atBatGo_spec ev 30 0 0 0 (by omega) (by omega) (by omega)
  refine ⟨h1, h2, h3, fun b s n => rfl, ?_⟩
  intro fuel b s n hsw hc
  simp only [atBatGo, hsw, hc]
  by_cases h2' : s < 2 <;> simp [h2']

/-- C7 witness: three straight taken strikes strike the batter out with
exactly three strikes. -/
theorem c7_atBat_termination_witness :
    (simulateAtBat (fun _ => ⟨true, false, Contact.noContact⟩)).strikes = 3 ∨
      ((simulateAtBat (fun _ => ⟨true, false, Contact.noContact⟩)).pitchCount = 30 ∧
        (simulateAtBat (fun _ => ⟨true, false, Contact.noContact⟩)).strikes = 2) :=
  (c7_atBat_termination (fun _ => ⟨true, false, Contact.noContact⟩)).2.1 (by decide)

/-- C10: `Game.handleWalk` returns 0 as its `runsScored` value for every
base-occupancy configuration, while the forced run of a bases-loaded walk is
credited to the batting team's score through `addRuns` (and only then). -/
theorem c10_handleWalk_returns_zero {α : Type} (bases : Bases α) (batter : α) :
    (handleWalk bases batter).2.2 = 0 ∧
    (handleWalk bases batter).2.1 =
      (if bases.first.isSome ∧ bases.second.isSome ∧ bases.third.isSome then 1
       else 0) := by
  refine ⟨rfl, ?_⟩
  by_cases h1 : bases.first.isSome ∧ bases.second.isSome ∧ bases.third.isSome
  · simp [handleWalk, h1]
  · by_cases h2 : bases.first.isSome ∧ bases.second.isSome <;>
      by_cases h3 : bases.first.isSome <;>
        simp [handleWalk, h1, h2, h3] <;>
          split <;> simp_all

end Softball

namespace Softball

/-- At-bat effect trace for the C3 counterexample: a solo home run then
three strikeouts in the top of the 1st (at-bats 0–3), two solo home runs and
three strikeouts in the bottom of the 1st (at-bats 4–8), and strikeouts
everywhere else. -/
def c3ev : ℕ → AtBatEff ℕ := fun k =>
  if k = 0 ∨ k = 4 ∨ k = 5 then AtBatEff.inPlay 1 0 {}
  else AtBatEff.strikeout

/-- Game-loop run for the C3 counterexample (`startingAwayScore = 0`,
captured when `simulate` begins, as in the source). -/
def c3run (n : ℕ) : SimSt ℕ × ℕ :=
  simRun 0 (fun _ => 0) (fun _ => 0) c3ev n (initSimSt ℕ, 0)

set_option maxRecDepth 8000 in
/-- C3 counterexample: after 67 loop iterations (4 at-bats and a boundary in
the top of the 1st, 5 and a boundary in the bottom of the 1st, then 14
three-strikeout halves) the top of the 9th begins with the away team
trailing 1–2; it ends (iteration 70) with the away team having scored
nothing in that half-inning relative to the half-start snapshot; yet the
end-of-half iteration (71) does not end the game — play continues into the
bottom of the 9th, because the code compares the away score against
`startingAwayScore`, captured once when `simulate()` started, not against a
half-start snapshot. -/
theorem c3_counterexample :
    ((c3run 67).1.currentInning = 9 ∧ (c3run 67).1.isTopHalf = true ∧
      (c3run 67).1.outs = 0 ∧ (c3run 67).1.awayScore = 1 ∧
      (c3run 67).1.homeScore = 2) ∧
    ((c3run 70).1.outs = 3 ∧ (c3run 70).1.awayScore = 1 ∧
      (c3run 70).1.isTopHalf = true) ∧
    ((c3run 71).1.isGameOver = false ∧ (c3run 71).1.isTopHalf = false ∧
      (c3run 71).1.currentInning = 9) := by decide

/-- Helper for C3: an at-bat iteration (outs < 3) of the `Game.simulate` loop
never sets the game-over flag. -/
lemma simStep_atBat_no_end {α : Type} (startAway : ℕ) (aL hL : ℕ → α)
    (ev : ℕ → AtBatEff α) (st : SimSt α) (k : ℕ)
    (hover : st.isGameOver = false) (houts : st.outs < 3) :
    (simStep startAway aL hL ev (st, k)).1.isGameOver = false := by
  simp only [simStep, hover, Bool.false_eq_true, if_false]
  by_cases h0 : st.outs = 0
  · rw [if_pos h0, if_pos (by simpa using houts)]
    cases hev : ev k <;> by_cases ht : st.isTopHalf <;>
      simp [hev, ht, hover]
  · rw [if_neg h0, if_pos houts]
    cases hev : ev k <;> by_cases ht : st.isTopHalf <;>
      simp [hev, ht, hover]

/-- C3 amended: at an end-of-half iteration after a completed top half, the
game ends exactly when the inning is at least 9, the away team trails, and
the away score equals the snapshot taken once when `simulate()` began (not a
half-start snapshot); the home team is then the winner.  A completed bottom
half ends the game exactly when the inning is at least 9 and the score is
unequal.  An at-bat iteration (outs < 3) never ends the game. -/
theorem c3_amended {α : Type} (startAway : ℕ) (aL hL : ℕ → α)
    (ev : ℕ → AtBatEff α) (st : SimSt α) (k : ℕ)
    (hover : st.isGameOver = false) :
    (3 ≤ st.outs →
      ((simStep startAway aL hL ev (st, k)).1.isGameOver = true ↔
        (9 ≤ st.currentInning ∧
          ((st.isTopHalf = true ∧ st.awayScore < st.homeScore ∧
              st.awayScore = startAway) ∨
            (st.isTopHalf = false ∧ st.homeScore ≠ st.awayScore))))) ∧
    (3 ≤ st.outs → st.isTopHalf = true →
      (simStep startAway aL hL ev (st, k)).1.isGameOver = true →
      (simStep startAway aL hL ev (st, k)).1.winnerIsHome = some true) ∧
    (st.outs < 3 → (simStep startAway aL hL ev (st, k)).1.isGameOver = false) := by
  have h0 : 3 ≤ st.outs → ¬st.outs = 0 := by omega
  have h3 : 3 ≤ st.outs → ¬st.outs < 3 := by omega
  refine ⟨?_, ?_, fun h => simStep_atBat_no_end startAway aL hL ev st k hover h⟩
  · intro houts
    simp only [simStep, hover, Bool.false_eq_true, if_false, if_neg (h0 houts),
      if_neg (h3 houts)]
    by_cases htop : 9 ≤ st.currentInning ∧ st.isTopHalf = true ∧
        st.awayScore < st.homeScore ∧ st.awayScore = startAway
    · rw [if_pos htop]
      exact iff_of_true rfl ⟨htop.1, Or.inl htop.2⟩
    · rw [if_neg htop]
      by_cases hbot : 9 ≤ st.currentInning ∧ st.isTopHalf = false ∧
          st.homeScore ≠ st.awayScore
      · rw [if_pos hbot]
        exact iff_of_true rfl ⟨hbot.1, Or.inr hbot.2⟩
      · rw [if_neg hbot]
        refine iff_of_false (by simp [hover]) ?_
        rintro ⟨h9, hc | hc⟩
        · exact htop ⟨h9, hc⟩
        · exact hbot ⟨h9, hc⟩
  · intro houts htop hdone
    simp only [simStep, hover, Bool.false_eq_true, if_false, if_neg (h0 houts),
      if_neg (h3 houts)] at hdone ⊢
    by_cases hcond : 9 ≤ st.currentInning ∧ st.isTopHalf = true ∧
        st.awayScore < st.homeScore ∧ st.awayScore = startAway
    · rw [if_pos hcond]
    · rw [if_neg hcond] at hdone ⊢
      by_cases hbot : 9 ≤ st.currentInning ∧ st.isTopHalf = false ∧
          st.homeScore ≠ st.awayScore
      · exact absurd hbot.2.1 (by simp [htop])
      · rw [if_neg hbot] at hdone
        exact absurd hdone (by simp [hover])

/-- C3 amended witness: with three outs in the top of the 9th, away trailing
0–1 and the away score equal to the simulation-start snapshot 0, the step
ends the game with the home team as winner; with 0 outs the step never ends
the game. -/
theorem c3_amended_witness :
    ((simStep 0 (fun _ => (0 : ℕ)) (fun _ => 0) (fun _ => AtBatEff.strikeout)
        (⟨{}, 3, 0, 1, 9, true, 0, 0, false, none, 0⟩, 0)).1.isGameOver = true ∧
      (simStep 0 (fun _ => (0 : ℕ)) (fun _ => 0) (fun _ => AtBatEff.strikeout)
        (⟨{}, 3, 0, 1, 9, true, 0, 0, false, none, 0⟩, 0)).1.winnerIsHome = some true) ∧
    (simStep 0 (fun _ => (0 : ℕ)) (fun _ => 0) (fun _ => AtBatEff.strikeout)
        (⟨{}, 0, 0, 1, 9, true, 0, 0, false, none, 0⟩, 0)).1.isGameOver = false := by
  refine ⟨⟨?_, ?_⟩, ?_⟩
  · exact ((c3_amended 0 (fun _ => (0 : ℕ)) (fun _ => 0) (fun _ => AtBatEff.strikeout)
      ⟨{}, 3, 0, 1, 9, true, 0, 0, false, none, 0⟩ 0 rfl).1 (by norm_num)).mpr
      (by norm_num)
  · refine (c3_amended 0 (fun _ => (0 : ℕ)) (fun _ => 0) (fun _ => AtBatEff.strikeout)
      ⟨{}, 3, 0, 1, 9, true, 0, 0, false, none, 0⟩ 0 rfl).2.1 (by norm_num) rfl ?_
    exact ((c3_amended 0 (fun _ => (0 : ℕ)) (fun _ => 0) (fun _ => AtBatEff.strikeout)
      ⟨{}, 3, 0, 1, 9, true, 0, 0, false, none, 0⟩ 0 rfl).1 (by norm_num)).mpr
      (by norm_num)
  · exact (c3_amended 0 (fun _ => (0 : ℕ)) (fun _ => 0) (fun _ => AtBatEff.strikeout)
      ⟨{}, 0, 0, 1, 9, true, 0, 0, false, none, 0⟩ 0 rfl).2.2 (by norm_num)

end Softball

namespace Softball

/-- A zero-stat catcher. -/
def catcher0 : Player := { activePosition := Pos.catcher }

/-- A catcher with maximal fielding and running (10 each). -/
def catcher10 : Player :=
  { activePosition := Pos.catcher, stats := { fielding := 10, running := 10 } }

/-- A team fielding the given player at every position (only the consulted
positions matter for the concrete evaluations below). -/
def teamOf (p : Player) : Team := ⟨fun _ => p, p⟩

/-- A straight-up infield pop: velocity 0, launch 88°, dead-center. -/
def popBall : BattedBall :=
  { batter := {}, velo := 0, foul := false, homer := false, attack := 0, launch := 88 }

lemma ballVHorizFtps_velo0 (b : BattedBall) (h : b.velo = 0) :
    ballVHorizFtps b = 0 := by
  simp [ballVHorizFtps, h]

lemma ballRangeRawFt_velo0 (b : BattedBall) (h : b.velo = 0) :
    ballRangeRawFt b = 0 := by
  simp [ballRangeRawFt, h]

lemma ballXAirFt_velo0 (b : BattedBall) (h : b.velo = 0) : ballXAirFt b = 0 := by
  simp [ballXAirFt, ballVHorizFtps_velo0 b h]

lemma popBall_velo : popBall.velo = 0 := rfl

lemma popBall_launch : popBall.launch = 88 := rfl

lemma popBall_attack : popBall.attack = 0 := rfl

lemma popBall_foul : popBall.foul = false := rfl

lemma popBall_homer : popBall.homer = false := rfl

lemma classifyBall_popBall : classifyBall popBall = BallType.POP := by
  simp only [classifyBall, popBall_launch]
  norm_num

lemma dropZoneCore_velo0_pop (cone : ℝ) (b : BattedBall) (hv : b.velo = 0)
    (hl : b.launch = 88) (hf : b.foul = false) :
    estimateDropZoneCore cone b = Pos.catcher := by
  simp only [estimateDropZoneCore, ballRangeRawFt_velo0 b hv,
    ballXAirFt_velo0 b hv, hl, hf]
  norm_num

lemma dropZoneCore_popBall (cone : ℝ) :
    estimateDropZoneCore cone popBall = Pos.catcher :=
  dropZoneCore_velo0_pop cone popBall rfl rfl rfl

lemma catcher0_not_outfielder : catcher0.isOutfielder = false := by
  simp [catcher0, Player.isOutfielder]

lemma catcher0_infielder : catcher0.isInfielder = true := by
  simp [catcher0, Player.isInfielder]

lemma catchProb_popBall_catcher0 :
    Legacy.calculateCatchProbability popBall catcher0 BallType.POP = 0.1 := by
  simp only [Legacy.calculateCatchProbability, popBall, catcher0_not_outfielder]
  norm_num [catcher0, min_def]

end Softball

namespace Softball

/-- A runner with zero running skill. -/
def runnerSlow : Player := {}

/-- A runner with maximal running skill. -/
def runnerFast : Player := { stats := { running := 10 } }

lemma attemptTag_slow_catcher0 (rnd : Rnd) (i : ℕ) (h : rnd i = 0.9) :
    Legacy.attemptTagUpAdvance runnerSlow catcher0 rnd i =
      (Legacy.TagUpOutcome.OUT, i + 1) := by
  simp only [Legacy.attemptTagUpAdvance, Legacy.tagUpTimeMargin,
    Legacy.tagUpCloseSuccessProb, catcher0_infielder, h]
  norm_num [runnerSlow, catcher0]

lemma attemptTag_fast_catcher0 (rnd : Rnd) (i : ℕ) (h : rnd i = 0.2) :
    Legacy.attemptTagUpAdvance runnerFast catcher0 rnd i =
      (Legacy.TagUpOutcome.SAFE, i + 1) := by
  simp only [Legacy.attemptTagUpAdvance, Legacy.tagUpTimeMargin,
    Legacy.tagUpCloseSuccessProb, catcher0_infielder, h]
  norm_num [runnerFast, catcher0]

end Softball

namespace Softball

/-- Draw stream for the C1 failing input: the catch succeeds (0.05 < 0.1) and
the tag-up contest draw 0.9 retires the runner. -/
noncomputable def c1rnd : Rnd := fun n => if n = 0 then 0.05 else 0.9

lemma handleTagUp_c1 :
    Legacy.handleTagUp ⟨none, none, some runnerSlow⟩ catcher0 c1rnd 1 =
      (0, 1, ({} : Bases Player), 2) := by
  simp only [Legacy.handleTagUp,
    attemptTag_slow_catcher0 c1rnd 1 (by norm_num [c1rnd])]

/-- C1 (code evaluated at the failing input): with two outs already recorded
and a runner on third, a caught straight-up pop handled by the catcher
followed by a tag-up throw-out records two outs on the play — one more than
the single remaining out — and drives the game's outs counter to 4. -/
theorem c1_caught_tagUp_outs_overflow :
    (Legacy.simulateFielding popBall
        ⟨⟨none, none, some runnerSlow⟩, 2, 0, teamOf catcher0⟩ c1rnd 0).2.1.outs = 4 ∧
    (Legacy.simulateFielding popBall
        ⟨⟨none, none, some runnerSlow⟩, 2, 0, teamOf catcher0⟩ c1rnd 0).1.playType =
      PlayType.DOUBLE_PLAY ∧
    (3 : ℕ) - (2 : ℕ) = 1 := by
  have hdz : Legacy.estimateDropZone popBall = Pos.catcher := dropZoneCore_popBall 3
  have hr0 : c1rnd 0 = 0.05 := by norm_num [c1rnd]
  simp only [Legacy.simulateFielding, Legacy.simulateFieldingResolve,
    classifyBall_popBall, hdz, teamOf, catchProb_popBall_catcher0, hr0, popBall_homer]
  norm_num [handleTagUp_c1, if_neg (show ¬(BallType.POP = BallType.GROUND) by decide)]

/-- Draw stream for the C4 failing input: the catch succeeds and the fast
runner's tag-up draw 0.2 beats the close-play success probability 0.302. -/
noncomputable def c4rnd : Rnd := fun n => if n = 0 then 0.05 else 0.2

lemma handleTagUp_c4 :
    Legacy.handleTagUp ⟨none, none, some runnerFast⟩ catcher0 c4rnd 1 =
      (1, 0, ({} : Bases Player), 2) := by
  simp only [Legacy.handleTagUp,
    attemptTag_fast_catcher0 c4rnd 1 (by norm_num [c4rnd])]

/-- C4 (code evaluated at the failing input): an infield pop caught by the
catcher — a battery position — with a fast runner on third still lets the
runner tag up and score: the play is a caught-ball OUT, the drop zone is the
catcher, and one run is credited to the batting team. -/
theorem c4_infield_catch_run_scores :
    Legacy.estimateDropZone popBall = Pos.catcher ∧
    (Legacy.simulateFielding popBall
        ⟨⟨none, none, some runnerFast⟩, 0, 0, teamOf catcher0⟩ c4rnd 0).1.playType =
      PlayType.OUT ∧
    (Legacy.simulateFielding popBall
        ⟨⟨none, none, some runnerFast⟩, 0, 0, teamOf catcher0⟩ c4rnd 0).2.1.battingScore = 1 := by
  have hdz : Legacy.estimateDropZone popBall = Pos.catcher := dropZoneCore_popBall 3
  have hr0 : c4rnd 0 = 0.05 := by norm_num [c4rnd]
  refine ⟨hdz, ?_⟩
  simp only [Legacy.simulateFielding, Legacy.simulateFieldingResolve,
    classifyBall_popBall, hdz, teamOf, catchProb_popBall_catcher0, hr0, popBall_homer]
  norm_num [handleTagUp_c4, if_neg (show ¬(BallType.POP = BallType.GROUND) by decide)]

end Softball

namespace Softball

/-- The C2 counterexample ball: flagged as a home run (positive launch), hit
straight up with zero velocity so that the drop zone is the catcher. -/
def hrPopBall : BattedBall :=
  { batter := {}, velo := 0, foul := false, homer := true, attack := 0, launch := 88 }

lemma classifyBall_hrPopBall : classifyBall hrPopBall = BallType.POP := by
  simp only [classifyBall, show hrPopBall.launch = 88 from rfl]
  norm_num

lemma catchProb_homer_catcher10 (bt : BallType) :
    Legacy.calculateCatchProbability hrPopBall catcher10 bt = 0.05 := by
  simp only [Legacy.calculateCatchProbability, show hrPopBall.homer = true from rfl]
  norm_num [catcher10, min_def]

lemma handleTagUp_empty (f : Player) (rnd : Rnd) (i : ℕ) :
    Legacy.handleTagUp {} f rnd i = (0, 0, ({} : Bases Player), i) := rfl

/-- C2 counterexample: in the legacy engine wired to `Game.ts`, a ball with
`homer = true` and positive launch is not an unconditional HOME_RUN: its
catch probability is `min(0.0025·fielding + 0.0025·running, 0.05) = 0.05`
for a 10/10 fielder, not 0, and when the catch draw succeeds the play
resolves as a caught-ball OUT, not HOME_RUN. -/
theorem c2_counterexample :
    hrPopBall.homer = true ∧ 0 < hrPopBall.launch ∧
    Legacy.calculateCatchProbability hrPopBall catcher10 BallType.POP = 0.05 ∧
    (Legacy.simulateFielding hrPopBall ⟨{}, 0, 0, teamOf catcher10⟩
        (fun _ => 0.01) 0).1.playType = PlayType.OUT := by
  have hdz : Legacy.estimateDropZone hrPopBall = Pos.catcher :=
    dropZoneCore_velo0_pop 3 hrPopBall rfl rfl rfl
  refine ⟨rfl, by norm_num [hrPopBall], catchProb_homer_catcher10 BallType.POP, ?_⟩
  simp only [Legacy.simulateFielding, Legacy.simulateFieldingResolve,
    classifyBall_hrPopBall, hdz, teamOf, catchProb_homer_catcher10,
    show hrPopBall.homer = true from rfl]
  norm_num [handleTagUp_empty, if_neg (show ¬(BallType.POP = BallType.GROUND) by decide)]

/-- A zero-skill center fielder. -/
def cf0 : Player := { activePosition := Pos.centerField }

/-- A center fielder with fielding 10. -/
def cf10 : Player := { activePosition := Pos.centerField, stats := { fielding := 10 } }

lemma cf0_not_infielder : cf0.isInfielder = false := by
  simp [cf0, Player.isInfielder]

lemma cf10_not_infielder : cf10.isInfielder = false := by
  simp [cf10, Player.isInfielder]

/-- C5 (code evaluated at the failing input): in `attemptTagUpAdvance`, a
higher fielding (arm) stat on the catching outfielder makes the tagging
runner MORE likely to be safe, not less: both arm values land in the
close-play window, the runner's success probability is strictly larger at
arm 10 than at arm 0, and the fixed draw 0.12 yields OUT against the
zero-arm fielder but SAFE against the ten-arm fielder. -/
theorem c5_tagUp_arm_inverted :
    Legacy.tagUpCloseSuccessProb runnerSlow cf0 <
      Legacy.tagUpCloseSuccessProb runnerSlow cf10 ∧
    (Legacy.attemptTagUpAdvance runnerSlow cf0 (fun _ => 0.12) 0).1 =
      Legacy.TagUpOutcome.OUT ∧
    (Legacy.attemptTagUpAdvance runnerSlow cf10 (fun _ => 0.12) 0).1 =
      Legacy.TagUpOutcome.SAFE := by
  refine ⟨?_, ?_, ?_⟩
  · simp only [Legacy.tagUpCloseSuccessProb, cf0_not_infielder, cf10_not_infielder]
    norm_num [runnerSlow, cf0, cf10]
  · simp only [Legacy.attemptTagUpAdvance, Legacy.tagUpTimeMargin,
      Legacy.tagUpCloseSuccessProb, cf0_not_infielder]
    norm_num [runnerSlow, cf0]
  · simp only [Legacy.attemptTagUpAdvance, Legacy.tagUpTimeMargin,
      Legacy.tagUpCloseSuccessProb, cf10_not_infielder]
    norm_num [runnerSlow, cf10]

/-- The C9 counterexample ball: zero exit velocity, launch 27°. -/
def c9ball : BattedBall :=
  { batter := {}, velo := 0, foul := false, homer := false, attack := 0, launch := 27 }

lemma calculateAirTime_velo0 (b : BattedBall) (hv : b.velo = 0) :
    calculateAirTime b =
      Real.sqrt (2 * 9.80665 * 1.0) / 9.80665 * (1 / (1 + 0.08)) := by
  simp only [calculateAirTime, hv, max_self, zero_mul, mul_zero, zero_add]
  rw [if_neg (not_lt.mpr (by positivity))]

/-- C9 counterexample: `calculateAirTime` at exit velocity 0 does not return
0 — it returns the (positive) free-fall time from the 1 m contact height,
damped by the 8 % drag factor. -/
theorem c9_counterexample :
    c9ball.velo = 0 ∧ 0 < calculateAirTime c9ball ∧ calculateAirTime c9ball ≠ 0 := by
  rw [calculateAirTime_velo0 c9ball rfl]
  refine ⟨rfl, by positivity, by positivity⟩

/-- C9 amended: for every launch angle (and every other field of the ball),
`calculateAirTime` at exit velocity 0 returns exactly
`√(2·9.80665·1.0) / 9.80665 · (1 / 1.08)` — the damped fall time from the
1 m contact height, about 0.418 s — which is strictly positive, and the
non-finite/negative guard never fires on this input. -/
theorem c9_airTime_velo0 (batter : Player) (foul homer : Bool)
    (attack launch : ℝ) :
    calculateAirTime ⟨batter, 0, foul, homer, attack, launch⟩ =
      Real.sqrt (2 * 9.80665 * 1.0) / 9.80665 * (1 / (1 + 0.08)) ∧
    0 < calculateAirTime ⟨batter, 0, foul, homer, attack, launch⟩ := by
  rw [calculateAirTime_velo0 ⟨batter, 0, foul, homer, attack, launch⟩ rfl]
  exact ⟨rfl, by positivity⟩

end Softball

namespace Softball

lemma determinePlayType_ne_HR (batter : Player) (fb : Bases Player) (o : ℕ) :
    Legacy.determinePlayType batter fb o ≠ PlayType.HOME_RUN := by
  unfold Legacy.determinePlayType
  split_ifs <;> simp

lemma resolve_HR (b : BattedBall) (g : Legacy.GameSt) (rnd : Rnd) (c : Bool)
    (i1 : ℕ)
    (h : (Legacy.simulateFieldingResolve b g rnd c i1).1.playType = PlayType.HOME_RUN) :
    (Legacy.simulateFieldingResolve b g rnd c i1).2.1.outs = g.outs ∧
    (Legacy.simulateFieldingResolve b g rnd c i1).2.1.basesOccupied = {} ∧
    (Legacy.simulateFieldingResolve b g rnd c i1).2.1.battingScore =
      g.battingScore + (g.basesOccupied.count + 1) := by
  cases c with
  | true =>
    exfalso
    simp only [Legacy.simulateFieldingResolve] at h
    rw [if_neg (by simp)] at h
    split_ifs at h
  | false =>
    by_cases hh : b.homer = true
    · simp only [Legacy.simulateFieldingResolve]
      rw [if_pos ⟨hh, by simp⟩]
      refine ⟨by simp, rfl, ?_⟩
      simp [Legacy.getRunsFromHomer]
    · exfalso
      simp only [Legacy.simulateFieldingResolve] at h
      rw [if_neg (fun hc => hh hc.1)] at h
      rw [if_neg (by simp)] at h
      exact determinePlayType_ne_HR _ _ _ h

lemma chooseBaseHitOutcome_ne_HR (b : BattedBall) (f : Player) (pos : Pos)
    (bt : BallType) (clean : Bool) (rnd : Rnd) (i : ℕ) :
    (FieldingTs.chooseBaseHitOutcome b f pos bt clean rnd i).2.1 ≠
      PlayType.HOME_RUN := by
  intro h
  unfold FieldingTs.chooseBaseHitOutcome at h
  simp only [apply_ite (fun t : ℕ × PlayType × ℕ => t.2.1)] at h
  split_ifs at h

lemma simulateFieldingTs_HR (b : BattedBall) (team : Team) (rnd : Rnd) (i : ℕ)
    (h : (FieldingTs.simulateFielding b team rnd i).1.result = PlayType.HOME_RUN) :
    (FieldingTs.simulateFielding b team rnd i).1 =
      ⟨team.firstPlayer, true, false, PlayType.HOME_RUN, 4⟩ := by
  by_cases hh : b.homer = true ∧ 0 < b.launch
  · simp only [FieldingTs.simulateFielding]
    rw [if_pos hh]
  · exfalso
    simp only [FieldingTs.simulateFielding] at h
    rw [if_neg hh] at h
    split_ifs at h <;>
      (try simp at h) <;>
      (try exact chooseBaseHitOutcome_ne_HR _ _ _ _ _ _ _ h)

lemma wr_field (runners : FieldingTs.RunnersWR) (b : BattedBall) (team : Team)
    (rnd : Rnd) (i : ℕ) :
    (FieldingTs.simulateFieldingWithRunners runners b team rnd i).1.field =
      (FieldingTs.simulateFielding b team rnd i).1 := by
  simp only [FieldingTs.simulateFieldingWithRunners]
  repeat' split
  all_goals rfl

/-- C6: whenever a play resolves as HOME_RUN, no outs are recorded, every
pre-play base is cleared, and the runs credited equal one plus the number of
occupied bases.  First conjunct: the legacy engine (`game.outs` unchanged,
`basesOccupied` cleared, the batting team's score raised by
`getRunsFromHomer = occupied + 1`).  Second conjunct: `fielding.ts`'s
`simulateFieldingWithRunners` (`batterBases = 4`, zero outs, nobody thrown
out, `runs = 1 + occupied`). -/
theorem c6_homeRun_contract :
    (∀ (b : BattedBall) (g : Legacy.GameSt) (rnd : Rnd) (i : ℕ),
      (Legacy.simulateFielding b g rnd i).1.playType = PlayType.HOME_RUN →
        (Legacy.simulateFielding b g rnd i).2.1.outs = g.outs ∧
        (Legacy.simulateFielding b g rnd i).2.1.basesOccupied = {} ∧
        (Legacy.simulateFielding b g rnd i).2.1.battingScore =
          g.battingScore + (g.basesOccupied.count + 1)) ∧
    (∀ (runners : FieldingTs.RunnersWR) (b : BattedBall) (team : Team)
        (rnd : Rnd) (i : ℕ),
      (FieldingTs.simulateFieldingWithRunners runners b team rnd i).1.field.result =
          PlayType.HOME_RUN →
        (FieldingTs.simulateFieldingWithRunners runners b team rnd i).1.batterBases = 4 ∧
        (FieldingTs.simulateFieldingWithRunners runners b team rnd i).1.outs = 0 ∧
        (FieldingTs.simulateFieldingWithRunners runners b team rnd i).1.runnersOut = [] ∧
        (FieldingTs.simulateFieldingWithRunners runners b team rnd i).1.runs =
          1 + ((if runners.first.isSome then 1 else 0) +
            (if runners.second.isSome then 1 else 0) +
            (if runners.third.isSome then 1 else 0))) := by
  constructor
  · intro b g rnd i h
    simp only [Legacy.simulateFielding] at h ⊢
    exact resolve_HR b g rnd _ _ h
  · intro runners b team rnd i h
    rw [wr_field] at h
    have hfr := simulateFieldingTs_HR b team rnd i h
    simp only [FieldingTs.simulateFieldingWithRunners, hfr]
    rw [if_pos (by simp)]
    by_cases h3 : runners.third.isSome <;> by_cases h2 : runners.second.isSome <;>
      by_cases h1 : runners.first.isSome <;>
        simp [h1, h2, h3]

end Softball

namespace Softball

lemma catchProb_homer_catcher0 (bt : BallType) :
    Legacy.calculateCatchProbability hrPopBall catcher0 bt = 0 := by
  simp only [Legacy.calculateCatchProbability, show hrPopBall.homer = true from rfl]
  norm_num [catcher0, min_def]

/-- Bases-loaded game state for the C6 witness (legacy engine). -/
def gC6 : Legacy.GameSt :=
  ⟨⟨some runnerSlow, some runnerSlow, some runnerSlow⟩, 0, 0, teamOf catcher0⟩

/-- Bases-loaded runner state for the C6 witness (`fielding.ts` engine). -/
def runnersC6 : FieldingTs.RunnersWR :=
  ⟨some runnerSlow, some runnerSlow, some runnerSlow, 0⟩

lemma c6_legacy_eval :
    (Legacy.simulateFielding hrPopBall gC6 (fun _ => 0.5) 0).1.playType =
      PlayType.HOME_RUN := by
  have hdz : Legacy.estimateDropZone hrPopBall = Pos.catcher :=
    dropZoneCore_velo0_pop 3 hrPopBall rfl rfl rfl
  simp only [Legacy.simulateFielding, Legacy.simulateFieldingResolve,
    classifyBall_hrPopBall, hdz, gC6, teamOf, catchProb_homer_catcher0,
    show hrPopBall.homer = true from rfl]
  norm_num [if_neg (show ¬(BallType.POP = BallType.GROUND) by decide)]

lemma c6_fieldingTs_eval (team : Team) (rnd : Rnd) (i : ℕ) :
    (FieldingTs.simulateFielding hrPopBall team rnd i).1.result =
      PlayType.HOME_RUN := by
  simp only [FieldingTs.simulateFielding]
  rw [if_pos ⟨rfl, by norm_num [hrPopBall]⟩]

/-- C6 witness: a bases-loaded uncaught home-run ball — legacy engine: outs
unchanged, bases cleared, four runs credited; `fielding.ts` engine: batter
credited four bases, no outs, nobody out, four runs. -/
theorem c6_homeRun_contract_witness :
    ((Legacy.simulateFielding hrPopBall gC6 (fun _ => 0.5) 0).2.1.outs = gC6.outs ∧
      (Legacy.simulateFielding hrPopBall gC6 (fun _ => 0.5) 0).2.1.basesOccupied = {} ∧
      (Legacy.simulateFielding hrPopBall gC6 (fun _ => 0.5) 0).2.1.battingScore =
        gC6.battingScore + (gC6.basesOccupied.count + 1)) ∧
    ((FieldingTs.simulateFieldingWithRunners runnersC6 hrPopBall (teamOf catcher0)
        (fun _ => 0.5) 0).1.batterBases = 4 ∧
      (FieldingTs.simulateFieldingWithRunners runnersC6 hrPopBall (teamOf catcher0)
        (fun _ => 0.5) 0).1.outs = 0 ∧
      (FieldingTs.simulateFieldingWithRunners runnersC6 hrPopBall (teamOf catcher0)
        (fun _ => 0.5) 0).1.runnersOut = [] ∧
      (FieldingTs.simulateFieldingWithRunners runnersC6 hrPopBall (teamOf catcher0)
        (fun _ => 0.5) 0).1.runs =
        1 + ((if runnersC6.first.isSome then 1 else 0) +
          (if runnersC6.second.isSome then 1 else 0) +
          (if runnersC6.third.isSome then 1 else 0))) :=
  ⟨c6_homeRun_contract.1 hrPopBall gC6 (fun _ => 0.5) 0 c6_legacy_eval,
   c6_homeRun_contract.2 runnersC6 hrPopBall (teamOf catcher0) (fun _ => 0.5) 0
     (by rw [wr_field]; exact c6_fieldingTs_eval (teamOf catcher0) (fun _ => 0.5) 0)⟩

/-- C2 amended: in `src/game/fielding.ts`, a batted ball with `homer = true`
and positive launch short-circuits `simulateFielding` to a HOME_RUN response
with four bases before any random draw is consumed (the returned draw index
equals the input index), and `catchProbability` is forced to 0 on such balls
— for every team, draw stream, fielder, position, ball type and hang time.
(The legacy engine wired to `Game.ts` instead gives such balls a catch
probability of up to 5 %; see the counterexample.) -/
theorem c2_homer_shortcircuit (b : BattedBall) (team : Team) (rnd : Rnd) (i : ℕ)
    (hh : b.homer = true) (hl : 0 < b.launch) :
    ((FieldingTs.simulateFielding b team rnd i).1.result = PlayType.HOME_RUN ∧
      (FieldingTs.simulateFielding b team rnd i).1.basesTaken = 4 ∧
      (FieldingTs.simulateFielding b team rnd i).2 = i) ∧
    (∀ (fielder : Player) (pos : Pos) (bt : BallType) (t : ℝ),
      FieldingTs.catchProbability b fielder pos bt t = 0) := by
  constructor
  · simp only [FieldingTs.simulateFielding]
    rw [if_pos ⟨hh, hl⟩]
    exact ⟨rfl, rfl, rfl⟩
  · intro fielder pos bt t
    simp only [FieldingTs.catchProbability]
    rw [if_pos ⟨hh, hl⟩]
    norm_num [clamp, min_def, max_def]

/-- C2 amended witness: the concrete home-run ball of the counterexample,
run through `fielding.ts`: HOME_RUN with four bases, no draw consumed, and a
zero catch probability. -/
theorem c2_homer_shortcircuit_witness :
    ((FieldingTs.simulateFielding hrPopBall (teamOf catcher10) (fun _ => 0.01) 0).1.result =
        PlayType.HOME_RUN ∧
      (FieldingTs.simulateFielding hrPopBall (teamOf catcher10) (fun _ => 0.01) 0).1.basesTaken = 4 ∧
      (FieldingTs.simulateFielding hrPopBall (teamOf catcher10) (fun _ => 0.01) 0).2 = 0) ∧
    FieldingTs.catchProbability hrPopBall catcher10 Pos.catcher BallType.POP 1 = 0 :=
  ⟨(c2_homer_shortcircuit hrPopBall (teamOf catcher10) (fun _ => 0.01) 0 rfl
      (by norm_num [hrPopBall])).1,
   (c2_homer_shortcircuit hrPopBall (teamOf catcher10) (fun _ => 0.01) 0 rfl
      (by norm_num [hrPopBall])).2 catcher10 Pos.catcher BallType.POP 1⟩

/-- The C8 counterexample ball: a fair grounder at launch 9°, dead-center,
with zero exit velocity. -/
def c8ball : BattedBall :=
  { batter := {}, velo := 0, foul := false, homer := false, attack := 0, launch := 9 }

lemma c8_timeToPlane : ballTimeToPlane c8ball = 43000 := by
  unfold ballTimeToPlane
  rw [ballXAirFt_velo0 c8ball rfl, ballVHorizFtps_velo0 c8ball rfl]
  norm_num [max_def]

/-- C8 counterexample: the ball satisfies every condition the claim gives for
a Pitcher assignment — its air travel (0 ft) has not reached the 43 ft
plane, the post-bounce time to the plane (43000 s) exceeds the 0.35 s
reaction threshold, the spray angle 0 is inside the ±5° cone, and the air
travel is at most 20 ft — yet `estimateDropZone` routes it to Second Base,
because the source also requires `launch ≤ 8°` (`GROUND_LAUNCH_MAX`), which
launch 9° violates. -/
theorem c8_counterexample :
    c8ball.foul = false ∧ c8ball.launch < 10 ∧
    ballXAirFt c8ball < 43 ∧ 0.35 ≤ ballTimeToPlane c8ball ∧
    |c8ball.attack| ≤ 5 ∧ ballXAirFt c8ball ≤ 20 ∧
    FieldingTs.estimateDropZone c8ball = Pos.secondBase := by
  refine ⟨rfl, by norm_num [c8ball], ?_, ?_, ?_, ?_, ?_⟩
  · rw [ballXAirFt_velo0 c8ball rfl]; norm_num
  · rw [c8_timeToPlane]; norm_num
  · norm_num [c8ball]
  · rw [ballXAirFt_velo0 c8ball rfl]; norm_num
  · simp only [FieldingTs.estimateDropZone, estimateDropZoneCore,
      ballXAirFt_velo0 c8ball rfl, show c8ball.foul = false from rfl,
      show c8ball.launch = (9 : ℝ) from rfl, show c8ball.attack = (0 : ℝ) from rfl]
    norm_num

/-- C8 amended: for a fair grounder whose horizontal air travel stays short
of the 43 ft pitcher plane, `estimateDropZone` in `src/game/fielding.ts`
returns Pitcher exactly when the spray angle is within ±5°, the launch is at
most 8° (a condition the spec sentence omits), the air travel is at most
20 ft, and the post-bounce time to the plane is at least 0.35 s; otherwise it
routes to Third Base / Shortstop / Second Base / First Base by the spray
thresholds −30°/−10°/+10°/+30°.  (Grounders whose air travel reaches the
plane fall through to the general ring/sector routing instead.) -/
theorem c8_grounder_routing (b : BattedBall) (hf : b.foul = false)
    (hl : b.launch < 10) (hx : ballXAirFt b < 43) :
    (FieldingTs.estimateDropZone b = Pos.pitcher ↔
      (|b.attack| ≤ 5 ∧ b.launch ≤ 8 ∧ ballXAirFt b ≤ 20 ∧
        0.35 ≤ ballTimeToPlane b)) ∧
    (¬(|b.attack| ≤ 5 ∧ b.launch ≤ 8 ∧ ballXAirFt b ≤ 20 ∧
        0.35 ≤ ballTimeToPlane b) →
      FieldingTs.estimateDropZone b =
        (if b.attack ≤ -30 then Pos.thirdBase
         else if 30 ≤ b.attack then Pos.firstBase
         else if b.attack < -10 then Pos.shortstop
         else if 10 < b.attack then Pos.secondBase
         else if b.attack < 0 then Pos.shortstop
         else Pos.secondBase)) := by
  have hred : FieldingTs.estimateDropZone b =
      (if |b.attack| ≤ 5 ∧ b.launch ≤ 8 ∧ ballXAirFt b ≤ 20 ∧
          0.35 ≤ ballTimeToPlane b then Pos.pitcher
       else if b.attack ≤ -30 then Pos.thirdBase
       else if 30 ≤ b.attack then Pos.firstBase
       else if b.attack < -10 then Pos.shortstop
       else if 10 < b.attack then Pos.secondBase
       else if b.attack < 0 then Pos.shortstop
       else Pos.secondBase) := by
    simp only [FieldingTs.estimateDropZone, estimateDropZoneCore]
    rw [if_neg (by simp [hf]), if_pos ⟨hl, hx⟩]
  constructor
  · rw [hred]
    by_cases hc : |b.attack| ≤ 5 ∧ b.launch ≤ 8 ∧ ballXAirFt b ≤ 20 ∧
        0.35 ≤ ballTimeToPlane b
    · rw [if_pos hc]
      exact iff_of_true rfl hc
    · rw [if_neg hc]
      exact iff_of_false (by split_ifs <;> simp) hc
  · intro hnc
    rw [hred, if_neg hnc]

/-- C8 amended witness: a dead-center zero-velocity grounder at launch 0°
satisfies the hypotheses; the characterization applies to it (and, its
conditions being met, it is a Pitcher ball). -/
theorem c8_grounder_routing_witness :
    FieldingTs.estimateDropZone
        ⟨{}, 0, false, false, 0, 0⟩ = Pos.pitcher := by
  refine ((c8_grounder_routing ⟨{}, 0, false, false, 0, 0⟩ rfl (by norm_num)
    (by rw [ballXAirFt_velo0 ⟨{}, 0, false, false, 0, 0⟩ rfl]; norm_num)).1).mpr ?_
  refine ⟨by norm_num, by norm_num, ?_, ?_⟩
  · rw [ballXAirFt_velo0 ⟨{}, 0, false, false, 0, 0⟩ rfl]; norm_num
  · have : ballTimeToPlane ⟨{}, 0, false, false, 0, 0⟩ = 43000 := by
      unfold ballTimeToPlane
      rw [ballXAirFt_velo0 ⟨{}, 0, false, false, 0, 0⟩ rfl,
        ballVHorizFtps_velo0 ⟨{}, 0, false, false, 0, 0⟩ rfl]
      norm_num [max_def]
    rw [this]; norm_num

end Softball
